import Mathlib

/-! yast-storage: the parted client component and the libstorage error codes

A shallow embedding of

* `src/client-parted/src/Y2PartedComponent.cc` (`doActualWork`, `report_progress`,
  `report_directory`, `report_exception`), and
* the `ErrorCodes` enumeration of `src/libstorage/src/StorageInterface.h`.

Conventions of the embedding

* A `std::string` is the list of its bytes; a byte is a `Fin 256`.
* Machine integers follow the LP64 data model of the 64 bit Linux targets: `int` has
  32 bits, `long`, `long long` and `size_t` have 64 bits.  A conversion to `int` of a value
  that does not fit wraps modulo `2^32` (the behaviour gcc documents).
* `char` is signed, `isalnum` classifies as in the "C" locale.
* Log output (`y2debug`, `y2milestone`, `y2warning`, `y2error`) is not modelled.
-/

namespace Y2Parted

/-! ## Bytes, C strings and the libc functions the component calls -/

/-- One `char` of storage. -/
abbrev Byte := Fin 256

/-- The contents of a `std::string` (embedded NUL bytes are possible). -/
abbrev CxxString := List Byte

/-- The bytes of an ASCII text, to write string literals of the source. -/
def lit (s : String) : CxxString := s.toList.map (fun c => Fin.ofNat c.toNat)

/-- The buffer `c_str()` points to: the contents followed by the terminating NUL. -/
def c_str (s : CxxString) : List Byte := s ++ [0]

/-- The libc `strlen`: the number of bytes before the first NUL. -/
def strlen (buf : List Byte) : Nat := (buf.takeWhile (fun b => b ≠ 0)).length

/-- Conversion of a `size_t` to `int`: reduction modulo `2^32` into `[-2^31, 2^31)`. -/
def toInt (n : Nat) : Int :=
  if n % 2 ^ 32 < 2 ^ 31 then ((n % 2 ^ 32 : Nat) : Int) else ((n % 2 ^ 32 : Nat) : Int) - 2 ^ 32

/-- The cast `(int) message_buf[i]` of a signed `char`. -/
def charToInt (b : Byte) : Int := if b.val < 128 then (b.val : Int) else (b.val : Int) - 256

/-- Conversion of an `int` back to `char`, as `index` does with its second argument. -/
def intToChar (c : Int) : Byte := Fin.ofNat (c % 256).toNat

/-- The libc `isalnum` in the "C" locale: the ten digits and the 52 ASCII letters. -/
def isalnum (c : Int) : Bool :=
  (48 ≤ c && c ≤ 57) || (65 ≤ c && c ≤ 90) || (97 ≤ c && c ≤ 122)

/-- The libc `index` (that is `strchr`), as a truth value: the result is non-NULL when the
character occurs in the string `s`, the terminating NUL of `s` included. -/
def index (s : CxxString) (c : Int) : Bool :=
  decide (intToChar c ∈ s) || decide (intToChar c = 0)

/-- The constructor `string(const char*)`: the bytes before the first NUL of the array;
`none` when the array holds no NUL (the constructor would read past its end). -/
def string_of_chars (buf : List Byte) : Option CxxString :=
  if (0 : Byte) ∈ buf then some (buf.takeWhile (fun b => b ≠ 0)) else none

/-- An assignment `message_final[k] = ch` to a `char[64]`; `none` when `k` is outside of the
array. -/
def store (message_final : List Byte) (k : Nat) (ch : Byte) : Option (List Byte) :=
  if k < message_final.length then some (message_final.set k ch) else none

/-! ## `report_directory`: the filter loop -/

/-- The loop
`for( i = 0, k = 0; i < length && k < 8; i++ ) if( isalnum(..) || index(".-_", ..) ) message_final[k++] = message_buf[i];`
started at `i`, `k`.  The first argument bounds the number of condition tests; `none` is
returned when it is exhausted, when `message_buf[i]` is read outside of the buffer, or when
`message_final[k]` is written outside of the array. -/
def filter_loop (message_buf : List Byte) (length : Int) :
    Nat → Nat → Nat → List Byte → Option (Nat × List Byte)
  | 0, _, _, _ => none
  | fuel + 1, i, k, message_final =>
    if (i : Int) < length ∧ k < 8 then
      match message_buf[i]? with
      | none => none
      | some ch =>
        if isalnum (charToInt ch) || index (lit ".-_") (charToInt ch) then
          match store message_final k ch with
          | none => none
          | some stored => filter_loop message_buf length fuel (i + 1) (k + 1) stored
        else filter_loop message_buf length fuel (i + 1) k message_final
    else some (k, message_final)

/-- Lines 238 to 262 of `report_directory`: the text `string(message_final)` built from
`message_directory`.  `length.toNat + 1` condition tests are granted to the loop. -/
def build_message_final (message_directory : CxxString) : Option CxxString :=
  let message_buf := c_str message_directory
  let length : Int := toInt (strlen message_buf)
  let message_final : List Byte := List.replicate 64 0
  match filter_loop message_buf length (length.toNat + 1) 0 0 message_final with
  | none => none
  | some (k, message_final) =>
    match store message_final k 46 with
    | none => none
    | some m1 =>
      match store m1 (k + 1) 46 with
      | none => none
      | some m2 =>
        match store m2 (k + 2) 46 with
        | none => none
        | some m3 =>
          match store m3 (k + 3) 10 with
          | none => none
          | some m4 => string_of_chars m4

/-! ## `report_progress`: the libc `atol` -/

/-- The libc `isspace` in the "C" locale: space, and the controls `\t \n \v \f \r`. -/
def isspace (b : Byte) : Bool := b.val = 32 || (9 ≤ b.val && b.val ≤ 13)

/-- The libc `isdigit`. -/
def isdigit (b : Byte) : Bool := 48 ≤ b.val && b.val ≤ 57

/-- The value of the run of decimal digits a buffer starts with, added to `acc * 10^run`. -/
def digit_run : List Byte → Nat → Nat
  | [], acc => acc
  | b :: rest, acc => if isdigit b then digit_run rest (acc * 10 + (b.val - 48)) else acc

/-- The range of a `long`: `strtol` returns `LONG_MIN` or `LONG_MAX` for a value outside. -/
def clamp_long (v : Int) : Int :=
  if v < -(2 ^ 63) then -(2 ^ 63) else if 2 ^ 63 - 1 < v then 2 ^ 63 - 1 else v

/-- The libc `atol`, that is `strtol(nptr, NULL, 10)`: leading white space is skipped, one
sign is accepted, the digit run that follows is the value; no digit gives 0. -/
def atol (nptr : List Byte) : Int :=
  match nptr.dropWhile isspace with
  | [] => 0
  | b :: rest =>
    if b.val = 45 then clamp_long (-(digit_run rest 0 : Nat))
    else if b.val = 43 then clamp_long (digit_run rest 0 : Nat)
    else clamp_long (digit_run (b :: rest) 0 : Nat)

/-! ## YCP values, the display layer and the parted process -/

/-- The YCP values the component handles. -/
inductive YCPValue
  | void
  | symbol (name : CxxString)
  | integer (value : Int)
  | string (value : CxxString)
  | boolean (value : Bool)
  deriving DecidableEq

/-- The test `val->isVoid()`. -/
def YCPValue.isVoid : YCPValue → Bool
  | .void => true
  | _ => false

/-- The symbol `ok`. -/
def RETURN_OK : YCPValue := .symbol (lit "ok")

/-- The symbol `error`. -/
def RETURN_ERROR : YCPValue := .symbol (lit "error")

/-- The symbol `cancel`. -/
def RETURN_CANCEL : YCPValue := .symbol (lit "cancel")

/-- What the component does to its collaborators, in the order it does it, together with the
entries of its three report functions. -/
inductive Event
  /-- Entry of `report_progress` with this message. -/
  | report_progress (message : CxxString)
  /-- Entry of `report_directory` with this message. -/
  | report_directory (message : CxxString)
  /-- Entry of `report_exception` with this message. -/
  | report_exception (message : CxxString)
  /-- A callback of the display layer is run: `t->appendParameter(parameter)` followed by
  `t->evaluateCall()` on the function call created for `symbol`. -/
  | evaluateCall (symbol : CxxString) (parameter : YCPValue)
  /-- The call `win_p.resize(partition_start, partition_length)` on the partition. -/
  | resize (partition partition_start partition_length : CxxString)
  /-- The call `win_p.status()`. -/
  | status
  deriving DecidableEq

/-- A `Y2Namespace` of the display layer.  Its answers may depend on everything that happened
before (the first argument), so any behaviour of the display layer is an instance. -/
structure Y2Namespace where
  /-- Whether `createFunctionCall(symbol, Type::Unspec)` returns a function call (non-NULL). -/
  createFunctionCall : List Event → CxxString → Bool
  /-- The value `evaluateCall()` returns for the call of `symbol` with one parameter. -/
  evaluateCall : List Event → CxxString → YCPValue → YCPValue

/-- A `Y2Component` as far as `doActualWork` uses it: `comp->import(name)`, `none` for NULL. -/
structure Y2Component where
  nsImport : CxxString → Option Y2Namespace

/-- The `Y2ComponentBroker`: `getNamespaceComponent(name)`, `none` for NULL. -/
structure Y2ComponentBroker where
  getNamespaceComponent : CxxString → Option Y2Component

/-- The three strings one call of `get_progress_status` fills in. -/
structure Messages where
  message_progress : CxxString
  message_directory : CxxString
  message_exception : CxxString
  deriving DecidableEq

/-- The object `win_p`.  The class `WIN_Partition` is declared in `WIN_Partition.h`, which is
not among the sources, so the behaviour of a run of parted that ends is taken as a parameter:
the strings of each call of `get_progress_status` that returns true (the call after the last
one returns false), and the value of `status()` after that. -/
structure WIN_Partition where
  progress_status : List Messages
  status : Int

/-- The argument `options`: `options->value(0)` to `options->value(5)`, each one void
(`none`) or a YCP string, as lines 40 to 46 of the source list them. -/
structure YCPList where
  value : Fin 6 → Option CxxString

/-- The expression `v->isVoid() ? "" : v->asString()->value()`. -/
def string_value (v : Option CxxString) : CxxString := v.getD []

/-- The member variables of `Y2PartedComponent` that the four functions use. -/
structure Y2PartedComponent where
  report_macro : Option Y2Namespace
  module : CxxString
  progress_symbol : CxxString
  directory_symbol : CxxString
  exception_symbol : CxxString
  partition : CxxString
  partition_start : CxxString
  partition_length : CxxString

/-! ## `std::string::find` and `substr` -/

/-- The call `s.find(pattern)`: the first position where `pattern` occurs, `none` for `npos`. -/
def find (pattern : CxxString) : CxxString → Option Nat
  | [] => if pattern = [] then some 0 else none
  | c :: rest =>
    if pattern.isPrefixOf (c :: rest) then some 0
    else (find pattern rest).map (fun p => p + 1)

/-- The call `s.substr(pos, n)`; `none` when `pos > s.size()` (`std::out_of_range`). -/
def substr (s : CxxString) (pos n : Nat) : Option CxxString :=
  if pos ≤ s.length then some ((s.drop pos).take n) else none

/-- The call `s.substr(pos)`; `none` when `pos > s.size()` (`std::out_of_range`). -/
def substr_from (s : CxxString) (pos : Nat) : Option CxxString :=
  if pos ≤ s.length then some (s.drop pos) else none

/-! ## The three report functions

The parameter `displayserver` of the source is used by none of them and is left out. -/

/-- `Y2PartedComponent::report_progress`, lines 182 to 213: the value returned and the
events so far. -/
def report_progress (self : Y2PartedComponent) (trace : List Event)
    (message_progress : CxxString) : YCPValue × List Event :=
  let trace := trace ++ [Event.report_progress message_progress]
  let val := YCPValue.void
  let percent := atol (c_str message_progress)
  match self.report_macro with
  | none => (val, trace)
  | some report_macro =>
    if report_macro.createFunctionCall trace self.progress_symbol then
      let parameter := YCPValue.integer percent
      let inner := report_macro.evaluateCall trace self.progress_symbol parameter
      let trace := trace ++ [Event.evaluateCall self.progress_symbol parameter]
      if !inner.isVoid then (RETURN_ERROR, trace) else (val, trace)
    else (val, trace)

/-- `Y2PartedComponent::report_directory`, lines 221 to 275; `none` when the construction of
`message_final` is undefined. -/
def report_directory (self : Y2PartedComponent) (trace : List Event)
    (message_directory : CxxString) : Option (YCPValue × List Event) :=
  let trace := trace ++ [Event.report_directory message_directory]
  let val := YCPValue.void
  match self.report_macro with
  | none => some (val, trace)
  | some report_macro =>
    if report_macro.createFunctionCall trace self.directory_symbol then
      match build_message_final message_directory with
      | none => none
      | some message_final =>
        let parameter := YCPValue.string message_final
        let inner := report_macro.evaluateCall trace self.directory_symbol parameter
        let trace := trace ++ [Event.evaluateCall self.directory_symbol parameter]
        if !inner.isVoid then some (RETURN_ERROR, trace) else some (val, trace)
    else some (val, trace)

/-- `Y2PartedComponent::report_exception`, lines 284 to 315. -/
def report_exception (self : Y2PartedComponent) (trace : List Event)
    (message_exception : CxxString) : YCPValue × List Event :=
  let trace := trace ++ [Event.report_exception message_exception]
  let val := YCPValue.void
  match self.report_macro with
  | none => (val, trace)
  | some report_macro =>
    if report_macro.createFunctionCall trace self.exception_symbol then
      let parameter := YCPValue.string message_exception
      let inner := report_macro.evaluateCall trace self.exception_symbol parameter
      let trace := trace ++ [Event.evaluateCall self.exception_symbol parameter]
      if !inner.isVoid then (RETURN_ERROR, trace) else (val, trace)
    else (val, trace)

/-! ## `doActualWork` -/

/-- Lines 48 to 73 of `doActualWork`: `report_macro`, `module` and `progress_symbol` from
the progress macro `options->value(0)`. -/
def get_progress_macro (self : Y2PartedComponent) (broker : Y2ComponentBroker)
    (options : YCPList) : Option Y2PartedComponent :=
  let self := { self with report_macro := none }
  let macro_string := string_value (options.value 0)
  match find (lit "::") macro_string with
  | none => some self
  | some colonpos =>
    match substr macro_string 0 colonpos, substr_from macro_string (colonpos + 2) with
    | some module, some progress_symbol =>
      let self := { self with module := module, progress_symbol := progress_symbol }
      match broker.getNamespaceComponent self.module with
      | some comp => some { self with report_macro := comp.nsImport self.module }
      | none => some self
    | _, _ => none

/-- Lines 75 to 82 of `doActualWork`: `directory_symbol` from `options->value(1)`. -/
def get_directory_symbol (self : Y2PartedComponent) (options : YCPList) :
    Option Y2PartedComponent :=
  let macro_string := string_value (options.value 1)
  match find (lit "::") macro_string with
  | none => some self
  | some colonpos =>
    match substr_from macro_string (colonpos + 2) with
    | some directory_symbol => some { self with directory_symbol := directory_symbol }
    | none => none

/-- Lines 84 to 91 of `doActualWork`: `exception_symbol` from `options->value(2)`. -/
def get_exception_symbol (self : Y2PartedComponent) (options : YCPList) :
    Option Y2PartedComponent :=
  let macro_string := string_value (options.value 2)
  match find (lit "::") macro_string with
  | none => some self
  | some colonpos =>
    match substr_from macro_string (colonpos + 2) with
    | some exception_symbol => some { self with exception_symbol := exception_symbol }
    | none => none

/-- Lines 48 to 103 of `doActualWork`: the member variables after the parameters are read. -/
def get_parameters (self : Y2PartedComponent) (broker : Y2ComponentBroker)
    (options : YCPList) : Option Y2PartedComponent :=
  match get_progress_macro self broker options with
  | none => none
  | some self =>
    match get_directory_symbol self options with
    | none => none
    | some self =>
      match get_exception_symbol self options with
      | none => none
      | some self =>
        some { self with
          partition := string_value (options.value 3)
          partition_start := string_value (options.value 4)
          partition_length := string_value (options.value 5) }

/-- One pass through the body of the `while` loop, lines 127 to 163, for the strings one
call of `get_progress_status` has filled in. -/
def show_progress_step (self : Y2PartedComponent) (trace : List Event) (m : Messages) :
    Option (List Event) :=
  let trace :=
    if m.message_progress ≠ [] then (report_progress self trace m.message_progress).2
    else trace
  match
    (if m.message_directory ≠ [] then
      (report_directory self trace m.message_directory).map (fun r => r.2)
    else some trace) with
  | none => none
  | some trace =>
    let trace :=
      if m.message_exception ≠ [] then (report_exception self trace m.message_exception).2
      else trace
    some trace

/-- The `while` loop, lines 123 to 164: one pass for each call of `get_progress_status`
that returns true. -/
def show_progress (self : Y2PartedComponent) : List Messages → List Event → Option (List Event)
  | [], trace => some trace
  | m :: rest, trace =>
    match show_progress_step self trace m with
    | none => none
    | some trace => show_progress self rest trace

/-- What a call of `doActualWork` leaves behind: the value returned, the member variables
and the events. -/
structure Outcome where
  returncode : YCPValue
  self : Y2PartedComponent
  trace : List Event

/-- `Y2PartedComponent::doActualWork`, lines 27 to 175.  `trace` holds what happened before
the call, `win_p` is the run of parted that `resize` starts. -/
def doActualWork (self : Y2PartedComponent) (broker : Y2ComponentBroker)
    (win_p : WIN_Partition) (trace : List Event) (options : YCPList) : Option Outcome :=
  let returncode := RETURN_OK
  match get_parameters self broker options with
  | none => none
  | some self =>
    let (val, trace) := report_progress self trace (lit "0.0")
    if !val.isVoid then some ⟨RETURN_ERROR, self, trace⟩
    else
      let trace := trace ++ [Event.resize self.partition self.partition_start self.partition_length]
      match show_progress self win_p.progress_status trace with
      | none => none
      | some trace =>
        let parted_status := win_p.status
        let trace := trace ++ [Event.status]
        let returncode := if parted_status ≠ 0 then RETURN_ERROR else returncode
        some ⟨returncode, self, trace⟩

/-! ## Notions used to state the properties of `report_directory` -/

/-- The test of line 249 and 250 on one byte of the message: `isalnum` or `index(".-_", ..)`. -/
def keep (b : Byte) : Bool := isalnum (charToInt b) || index (lit ".-_") (charToInt b)

/-- The allow-list in the words of the specification: an ASCII letter, a digit, or one of
`.`, `-`, `_`. -/
def allowed (b : Byte) : Bool :=
  (65 ≤ b.val && b.val ≤ 90) || (97 ≤ b.val && b.val ≤ 122) || (48 ≤ b.val && b.val ≤ 57)
    || b.val = 46 || b.val = 45 || b.val = 95

/-- The number of bytes of the message the loop may look at: the value of the `int`
variable `length`, zero when that is negative. -/
def scanned (message_directory : CxxString) : Nat :=
  (toInt (strlen (c_str message_directory))).toNat

/-- The fixed suffix `"...\n"` written by lines 255 to 258. -/
def suffix : CxxString := lit "...\n"

/-! ## The writes of `report_directory` into `message_final` -/

/-- The loop `filter_loop` once more, with a record of its writes: the last argument
collects the index `k` of every assignment `message_final[k++] = message_buf[i]`. -/
def filter_loop_writes (message_buf : List Byte) (length : Int) :
    Nat → Nat → Nat → List Byte → List Nat → Option (Nat × List Byte × List Nat)
  | 0, _, _, _, _ => none
  | fuel + 1, i, k, message_final, writes =>
    if (i : Int) < length ∧ k < 8 then
      match message_buf[i]? with
      | none => none
      | some ch =>
        if isalnum (charToInt ch) || index (lit ".-_") (charToInt ch) then
          match store message_final k ch with
          | none => none
          | some stored =>
            filter_loop_writes message_buf length fuel (i + 1) (k + 1) stored (writes ++ [k])
        else filter_loop_writes message_buf length fuel (i + 1) k message_final writes
    else some (k, message_final, writes)

/-- Lines 238 to 258 of `report_directory` with a record of the writes: the array
`message_final` after the last assignment, and the indices of all assignments to it, those
of the loop and the four of lines 255 to 258, in their order. -/
def message_final_writes (message_directory : CxxString) : Option (List Byte × List Nat) :=
  let message_buf := c_str message_directory
  let length : Int := toInt (strlen message_buf)
  let message_final : List Byte := List.replicate 64 0
  match filter_loop_writes message_buf length (length.toNat + 1) 0 0 message_final [] with
  | none => none
  | some (k, message_final, writes) =>
    match store message_final k 46 with
    | none => none
    | some m1 =>
      match store m1 (k + 1) 46 with
      | none => none
      | some m2 =>
        match store m2 (k + 2) 46 with
        | none => none
        | some m3 =>
          match store m3 (k + 3) 10 with
          | none => none
          | some m4 => some (m4, writes ++ [k, k + 1, k + 2, k + 3])

/-! ## Notions used to state the properties of `report_progress` -/

/-- The decimal value of a list of digits. -/
def decimal_value (digits : List Byte) : Nat :=
  digits.foldl (fun acc d => acc * 10 + (d.val - 48)) 0

/-- The number a message stands for, in the words of the specification: the decimal value of
the digit run, with a sign in front of it or without, that follows the leading white space;
what comes from the first non-digit on is dropped; without digits the number is 0. -/
def signed_digit_run (message : CxxString) : Int :=
  match message.dropWhile isspace with
  | [] => 0
  | b :: rest =>
    if b.val = 45 then -(decimal_value (rest.takeWhile isdigit) : Int)
    else if b.val = 43 then (decimal_value (rest.takeWhile isdigit) : Int)
    else (decimal_value ((b :: rest).takeWhile isdigit) : Int)

/-! ## Notions used to state the properties of the report functions -/

/-- The condition `report_macro && t` of the three report functions, where `t` is the
function call created for `symbol`. -/
def callable (self : Y2PartedComponent) (trace : List Event) (symbol : CxxString) : Bool :=
  match self.report_macro with
  | none => false
  | some report_macro => report_macro.createFunctionCall trace symbol

/-- The value `t->evaluateCall()` returns to a report function (void without a macro). -/
def answer (self : Y2PartedComponent) (trace : List Event) (symbol : CxxString)
    (parameter : YCPValue) : YCPValue :=
  match self.report_macro with
  | none => .void
  | some report_macro => report_macro.evaluateCall trace symbol parameter

/-- The law of the value `val` a report function returns, when `before` are the events up to
and with its entry, `after` the events at its return, and `symbol`, `parameter` what it
would call: the value is void or the symbol `error`; it is `error` exactly when
the callback was run and its evaluation was not void; it is void when the callback was run
and its evaluation was void. -/
def result_law (self : Y2PartedComponent) (before : List Event) (symbol : CxxString)
    (parameter : YCPValue) (val : YCPValue) (after : List Event) : Prop :=
  (val = .void ∨ val = RETURN_ERROR) ∧
  (val = RETURN_ERROR ↔
    ∃ display, self.report_macro = some display ∧
      after = before ++ [Event.evaluateCall symbol parameter] ∧
      (display.evaluateCall before symbol parameter).isVoid = false) ∧
  (∀ display, self.report_macro = some display →
    after = before ++ [Event.evaluateCall symbol parameter] →
    (display.evaluateCall before symbol parameter).isVoid = true → val = .void)

/-- The events a report function adds to the events so far: its entry and, when the
callback can be called, the call of the callback. -/
def report_events (self : Y2PartedComponent) (trace : List Event) (entry : Event)
    (symbol : CxxString) (parameter : YCPValue) : List Event :=
  entry :: (if callable self (trace ++ [entry]) symbol
    then [Event.evaluateCall symbol parameter] else [])

/-- The entries of the three report functions among the events. -/
def Event.isReport : Event → Bool
  | .report_progress _ => true
  | .report_directory _ => true
  | .report_exception _ => true
  | _ => false

/-- The report calls one round of messages asks for: one for each string that is not empty,
progress before directory before exception. -/
def reports_of (m : Messages) : List Event :=
  (if m.message_progress ≠ [] then [Event.report_progress m.message_progress] else []) ++
  (if m.message_directory ≠ [] then [Event.report_directory m.message_directory] else []) ++
  (if m.message_exception ≠ [] then [Event.report_exception m.message_exception] else [])

/-- The component with a display layer that provides the same functions, but whose callbacks
return the values `values` gives. -/
def with_answers (self : Y2PartedComponent)
    (values : List Event → CxxString → YCPValue → YCPValue) : Y2PartedComponent :=
  { self with
    report_macro := self.report_macro.map (fun display =>
      { display with evaluateCall := values }) }

/-- The events one pass through the body of the `while` loop adds. -/
def step_events (self : Y2PartedComponent) (trace : List Event) (m : Messages) :
    List Event :=
  let progress :=
    if m.message_progress ≠ [] then
      report_events self trace (Event.report_progress m.message_progress)
        self.progress_symbol (.integer (atol (c_str m.message_progress)))
    else []
  let directory :=
    if m.message_directory ≠ [] then
      report_events self (trace ++ progress) (Event.report_directory m.message_directory)
        self.directory_symbol
        (.string (((m.message_directory.take (scanned m.message_directory)).filter
          keep).take 8 ++ suffix))
    else []
  let exception :=
    if m.message_exception ≠ [] then
      report_events self (trace ++ progress ++ directory)
        (Event.report_exception m.message_exception)
        self.exception_symbol (.string m.message_exception)
    else []
  progress ++ directory ++ exception

/-- The events the `while` loop adds, for the rounds of messages given. -/
def loop_events (self : Y2PartedComponent) : List Messages → List Event → List Event
  | [], _ => []
  | m :: rest, trace =>
    step_events self trace m ++ loop_events self rest (trace ++ step_events self trace m)

/-! ## Notions used to state the properties of the macros -/

/-- The symbol part of a macro: the text behind its first `::`, if it has one. -/
def symbol_part (macro_string : CxxString) : Option CxxString :=
  (find (lit "::") macro_string).map (fun colonpos => macro_string.drop (colonpos + 2))

/-- The callbacks among the events. -/
def Event.isCallback : Event → Bool
  | .evaluateCall _ _ => true
  | _ => false

/-! ## Sample collaborators, for the concrete instances of the theorems -/

/-- A display layer that provides every function; its callbacks return void. -/
def quiet_display : Y2Namespace :=
  { createFunctionCall := fun _ _ => true, evaluateCall := fun _ _ _ => .void }

/-- A display layer that provides every function; its callbacks return a non-void value. -/
def failing_display : Y2Namespace :=
  { createFunctionCall := fun _ _ => true, evaluateCall := fun _ _ _ => .boolean false }

/-- A display layer that accepts the first progress value and fails from then on. -/
def late_failing_display : Y2Namespace :=
  { createFunctionCall := fun _ _ => true
    evaluateCall := fun trace _ _ => if trace.length ≤ 1 then .void else .boolean false }

/-- A display layer that provides no function. -/
def empty_display : Y2Namespace :=
  { createFunctionCall := fun _ _ => false, evaluateCall := fun _ _ _ => .void }

/-- A component whose members are set as for the macros `Progress::OnProgress`,
`Progress::OnTarget` and `Progress::OnDiagnostic`. -/
def sample_component (display : Option Y2Namespace) : Y2PartedComponent :=
  { report_macro := display
    module := lit "Progress"
    progress_symbol := lit "OnProgress"
    directory_symbol := lit "OnTarget"
    exception_symbol := lit "OnDiagnostic"
    partition := lit "/dev/sda1"
    partition_start := lit "0.0"
    partition_length := lit "200.3" }

/-- A broker that resolves every module name to the given namespace. -/
def sample_broker (display : Y2Namespace) : Y2ComponentBroker :=
  { getNamespaceComponent := fun _ => some { nsImport := fun _ => some display } }

/-- The options of a call: three macros, the partition, its new start and length. -/
def sample_options : YCPList :=
  { value := fun i =>
      if i = 0 then some (lit "Progress::OnProgress")
      else if i = 1 then some (lit "Progress::OnTarget")
      else if i = 2 then some (lit "Progress::OnDiagnostic")
      else if i = 3 then some (lit "/dev/sda1")
      else if i = 4 then some (lit "0.0")
      else some (lit "200.3") }

/-- A run of parted with two rounds of messages that ends with the given status. -/
def sample_run (status : Int) : WIN_Partition :=
  { progress_status :=
      [{ message_progress := lit "50.0", message_directory := lit "/mnt/win", message_exception := [] },
       { message_progress := [], message_directory := [], message_exception := lit "Error: x" }]
    status := status }

/-- Options without a progress macro; the other two macros are well-formed. -/
def options_without_progress : YCPList :=
  { value := fun i =>
      if i = 0 then none
      else if i = 1 then some (lit "Progress::OnTarget")
      else if i = 2 then some (lit "Progress::OnDiagnostic")
      else if i = 3 then some (lit "/dev/sda1")
      else if i = 4 then some (lit "0.0")
      else some (lit "200.3") }

/-- The options `sample_options` with other module names in front of the directory and
the exception symbol. -/
def options_other_modules : YCPList :=
  { value := fun i =>
      if i = 0 then some (lit "Progress::OnProgress")
      else if i = 1 then some (lit "Other::OnTarget")
      else if i = 2 then some (lit "Else::OnDiagnostic")
      else if i = 3 then some (lit "/dev/sda1")
      else if i = 4 then some (lit "0.0")
      else some (lit "200.3") }

end Y2Parted

/-! ## The error codes of libstorage (`StorageInterface.h`, lines 136 to 257) -/

namespace storage

/-- The enumerators of `enum ErrorCodes`, in the order of their declaration. -/
inductive ErrorCodes
  | DISK_CREATE_PARTITION_OVERLAPS_EXISTING
  | DISK_CREATE_PARTITION_EXCEEDS_DISK
  | DISK_CREATE_PARTITION_EXT_ONLY_ONCE
  | DISK_CREATE_PARTITION_EXT_IMPOSSIBLE
  | DISK_CREATE_PARTITION_NO_FREE_NUMBER
  | DISK_CREATE_PARTITION_INVALID_VOLUME
  | DISK_CREATE_PARTITION_INVALID_TYPE
  | DISK_CREATE_PARTITION_PARTED_FAILED
  | DISK_CREATE_PARTITION_NOT_FOUND
  | DISK_CREATE_PARTITION_LOGICAL_NO_EXT
  | DISK_CREATE_PARTITION_LOGICAL_OUTSIDE_EXT
  | DISK_SET_TYPE_INVALID_VOLUME
  | DISK_SET_TYPE_PARTED_FAILED
  | DISK_SET_LABEL_PARTED_FAILED
  | DISK_REMOVE_PARTITION_NOT_FOUND
  | DISK_REMOVE_PARTITION_PARTED_FAILED
  | DISK_REMOVE_PARTITION_INVALID_VOLUME
  | DISK_REMOVE_PARTITION_LIST_ERASE
  | DISK_CHANGE_PARTITION_ID_NOT_FOUND
  | DISK_DESTROY_TABLE_INVALID_LABEL
  | DISK_CREATE_PARTITION_ZERO_SIZE
  | DISK_CHANGE_READONLY
  | DISK_RESIZE_PARTITION_INVALID_VOLUME
  | DISK_RESIZE_PARTITION_PARTED_FAILED
  | DISK_RESIZE_PARTITION_NOT_FOUND
  | DISK_RESIZE_NO_SPACE
  | DISK_CHECK_RESIZE_INVALID_VOLUME
  | DISK_REMOVE_PARTITION_CREATE_NOT_FOUND
  | DISK_COMMIT_NOTHING_TODO
  | DISK_CREATE_PARTITION_NO_SPACE
  | STORAGE_DISK_NOT_FOUND
  | STORAGE_VOLUME_NOT_FOUND
  | STORAGE_REMOVE_PARTITION_INVALID_CONTAINER
  | STORAGE_CHANGE_PARTITION_ID_INVALID_CONTAINER
  | STORAGE_CHANGE_READONLY
  | STORAGE_DISK_USED_BY
  | STORAGE_LVM_VG_EXISTS
  | STORAGE_LVM_VG_NOT_FOUND
  | STORAGE_LVM_INVALID_DEVICE
  | STORAGE_CONTAINER_NOT_FOUND
  | STORAGE_VG_INVALID_NAME
  | VOLUME_COMMIT_UNKNOWN_STAGE
  | VOLUME_FSTAB_EMPTY_MOUNT
  | VOLUME_UMOUNT_FAILED
  | VOLUME_MOUNT_FAILED
  | VOLUME_FORMAT_DD_FAILED
  | VOLUME_FORMAT_UNKNOWN_FS
  | VOLUME_FORMAT_FS_UNDETECTED
  | VOLUME_FORMAT_FS_TOO_SMALL
  | VOLUME_FORMAT_FAILED
  | VOLUME_TUNE2FS_FAILED
  | VOLUME_MKLABEL_FS_UNABLE
  | VOLUME_MKLABEL_FAILED
  | VOLUME_LOSETUP_NO_LOOP
  | VOLUME_LOSETUP_FAILED
  | VOLUME_CRYPT_NO_PWD
  | VOLUME_CRYPT_PWD_TOO_SHORT
  | VOLUME_CRYPT_NOT_DETECTED
  | VOLUME_FORMAT_EXTENDED_UNSUPPORTED
  | VOLUME_MOUNT_EXTENDED_UNSUPPORTED
  | VOLUME_MOUNT_POINT_INAVLID
  | VOLUME_MOUNTBY_NOT_ENCRYPTED
  | VOLUME_MOUNTBY_UNSUPPORTED_BY_FS
  | VOLUME_LABEL_NOT_SUPPORTED
  | VOLUME_LABEL_TOO_LONG
  | VOLUME_LABEL_WHILE_MOUNTED
  | VOLUME_RESIZE_UNSUPPORTED_BY_FS
  | VOLUME_RESIZE_UNSUPPORTED_BY_CONTAINER
  | VOLUME_RESIZE_FAILED
  | VOLUME_ALREADY_IN_USE
  | LVM_CREATE_PV_FAILED
  | LVM_PE_SIZE_INVALID
  | LVM_PV_ALREADY_CONTAINED
  | LVM_PV_DEVICE_UNKNOWN
  | LVM_PV_DEVICE_USED
  | LVM_VG_HAS_NONE_PV
  | LVM_PV_NOT_FOUND
  | LVM_REMOVE_PV_SIZE_NEEDED
  | LVM_REMOVE_PV_IN_USE
  | LVM_LV_INVALID_NAME
  | LVM_LV_DUPLICATE_NAME
  | LVM_LV_NO_SPACE
  | LVM_LV_NO_SPACE_STRIPED
  | LVM_LV_NO_SPACE_SINGLE
  | LVM_LV_UNKNOWN_NAME
  | LVM_LV_PE_DEV_NOT_FOUND
  | LVM_LV_NOT_IN_LIST
  | LVM_VG_CREATE_FAILED
  | LVM_VG_EXTEND_FAILED
  | LVM_VG_REDUCE_FAILED
  | LVM_VG_REMOVE_FAILED
  | LVM_LV_CREATE_FAILED
  | LVM_LV_REMOVE_FAILED
  | LVM_LV_RESIZE_FAILED
  | LVM_PV_STILL_ADDED
  | LVM_PV_REMOVE_NOT_FOUND
  | LVM_CREATE_LV_INVALID_VOLUME
  | LVM_REMOVE_LV_INVALID_VOLUME
  | LVM_RESIZE_LV_INVALID_VOLUME
  | LVM_CHANGE_READONLY
  | LVM_CHECK_RESIZE_INVALID_VOLUME
  | LVM_COMMIT_NOTHING_TODO
  | FSTAB_ENTRY_NOT_FOUND
  | FSTAB_CHANGE_PREFIX_IMPOSSIBLE
  | FSTAB_REMOVE_ENTRY_NOT_FOUND
  | FSTAB_UPDATE_ENTRY_NOT_FOUND
  | FSTAB_ADD_ENTRY_FOUND
  | CONTAINER_INTERNAL_ERROR
  | CONTAINER_INVALID_VIRTUAL_CALL
  deriving DecidableEq

/-- The integer value each enumerator is declared with. -/
def ErrorCodes.value : ErrorCodes → Int
  | .DISK_CREATE_PARTITION_OVERLAPS_EXISTING => -1000
  | .DISK_CREATE_PARTITION_EXCEEDS_DISK => -1001
  | .DISK_CREATE_PARTITION_EXT_ONLY_ONCE => -1002
  | .DISK_CREATE_PARTITION_EXT_IMPOSSIBLE => -1003
  | .DISK_CREATE_PARTITION_NO_FREE_NUMBER => -1004
  | .DISK_CREATE_PARTITION_INVALID_VOLUME => -1005
  | .DISK_CREATE_PARTITION_INVALID_TYPE => -1006
  | .DISK_CREATE_PARTITION_PARTED_FAILED => -1007
  | .DISK_CREATE_PARTITION_NOT_FOUND => -1008
  | .DISK_CREATE_PARTITION_LOGICAL_NO_EXT => -1009
  | .DISK_CREATE_PARTITION_LOGICAL_OUTSIDE_EXT => -1010
  | .DISK_SET_TYPE_INVALID_VOLUME => -1011
  | .DISK_SET_TYPE_PARTED_FAILED => -1012
  | .DISK_SET_LABEL_PARTED_FAILED => -1013
  | .DISK_REMOVE_PARTITION_NOT_FOUND => -1014
  | .DISK_REMOVE_PARTITION_PARTED_FAILED => -1015
  | .DISK_REMOVE_PARTITION_INVALID_VOLUME => -1016
  | .DISK_REMOVE_PARTITION_LIST_ERASE => -1017
  | .DISK_CHANGE_PARTITION_ID_NOT_FOUND => -1018
  | .DISK_DESTROY_TABLE_INVALID_LABEL => -1019
  | .DISK_CREATE_PARTITION_ZERO_SIZE => -1020
  | .DISK_CHANGE_READONLY => -1021
  | .DISK_RESIZE_PARTITION_INVALID_VOLUME => -1022
  | .DISK_RESIZE_PARTITION_PARTED_FAILED => -1023
  | .DISK_RESIZE_PARTITION_NOT_FOUND => -1024
  | .DISK_RESIZE_NO_SPACE => -1025
  | .DISK_CHECK_RESIZE_INVALID_VOLUME => -1026
  | .DISK_REMOVE_PARTITION_CREATE_NOT_FOUND => -1027
  | .DISK_COMMIT_NOTHING_TODO => -1028
  | .DISK_CREATE_PARTITION_NO_SPACE => -1029
  | .STORAGE_DISK_NOT_FOUND => -2000
  | .STORAGE_VOLUME_NOT_FOUND => -2001
  | .STORAGE_REMOVE_PARTITION_INVALID_CONTAINER => -2002
  | .STORAGE_CHANGE_PARTITION_ID_INVALID_CONTAINER => -2003
  | .STORAGE_CHANGE_READONLY => -2004
  | .STORAGE_DISK_USED_BY => -2005
  | .STORAGE_LVM_VG_EXISTS => -2006
  | .STORAGE_LVM_VG_NOT_FOUND => -2007
  | .STORAGE_LVM_INVALID_DEVICE => -2008
  | .STORAGE_CONTAINER_NOT_FOUND => -2009
  | .STORAGE_VG_INVALID_NAME => -2010
  | .VOLUME_COMMIT_UNKNOWN_STAGE => -3000
  | .VOLUME_FSTAB_EMPTY_MOUNT => -3001
  | .VOLUME_UMOUNT_FAILED => -3002
  | .VOLUME_MOUNT_FAILED => -3003
  | .VOLUME_FORMAT_DD_FAILED => -3004
  | .VOLUME_FORMAT_UNKNOWN_FS => -3005
  | .VOLUME_FORMAT_FS_UNDETECTED => -3006
  | .VOLUME_FORMAT_FS_TOO_SMALL => -3007
  | .VOLUME_FORMAT_FAILED => -3008
  | .VOLUME_TUNE2FS_FAILED => -3009
  | .VOLUME_MKLABEL_FS_UNABLE => -3010
  | .VOLUME_MKLABEL_FAILED => -3011
  | .VOLUME_LOSETUP_NO_LOOP => -3012
  | .VOLUME_LOSETUP_FAILED => -3013
  | .VOLUME_CRYPT_NO_PWD => -3014
  | .VOLUME_CRYPT_PWD_TOO_SHORT => -3015
  | .VOLUME_CRYPT_NOT_DETECTED => -3016
  | .VOLUME_FORMAT_EXTENDED_UNSUPPORTED => -3017
  | .VOLUME_MOUNT_EXTENDED_UNSUPPORTED => -3018
  | .VOLUME_MOUNT_POINT_INAVLID => -3019
  | .VOLUME_MOUNTBY_NOT_ENCRYPTED => -3020
  | .VOLUME_MOUNTBY_UNSUPPORTED_BY_FS => -3021
  | .VOLUME_LABEL_NOT_SUPPORTED => -3022
  | .VOLUME_LABEL_TOO_LONG => -3023
  | .VOLUME_LABEL_WHILE_MOUNTED => -3024
  | .VOLUME_RESIZE_UNSUPPORTED_BY_FS => -3025
  | .VOLUME_RESIZE_UNSUPPORTED_BY_CONTAINER => -3026
  | .VOLUME_RESIZE_FAILED => -3027
  | .VOLUME_ALREADY_IN_USE => -3028
  | .LVM_CREATE_PV_FAILED => -4000
  | .LVM_PE_SIZE_INVALID => -4001
  | .LVM_PV_ALREADY_CONTAINED => -4002
  | .LVM_PV_DEVICE_UNKNOWN => -4003
  | .LVM_PV_DEVICE_USED => -4004
  | .LVM_VG_HAS_NONE_PV => -4005
  | .LVM_PV_NOT_FOUND => -4006
  | .LVM_REMOVE_PV_SIZE_NEEDED => -4007
  | .LVM_REMOVE_PV_IN_USE => -4008
  | .LVM_LV_INVALID_NAME => -4009
  | .LVM_LV_DUPLICATE_NAME => -4010
  | .LVM_LV_NO_SPACE => -4011
  | .LVM_LV_NO_SPACE_STRIPED => -4012
  | .LVM_LV_NO_SPACE_SINGLE => -4013
  | .LVM_LV_UNKNOWN_NAME => -4014
  | .LVM_LV_PE_DEV_NOT_FOUND => -4015
  | .LVM_LV_NOT_IN_LIST => -4016
  | .LVM_VG_CREATE_FAILED => -4017
  | .LVM_VG_EXTEND_FAILED => -4018
  | .LVM_VG_REDUCE_FAILED => -4019
  | .LVM_VG_REMOVE_FAILED => -4020
  | .LVM_LV_CREATE_FAILED => -4021
  | .LVM_LV_REMOVE_FAILED => -4022
  | .LVM_LV_RESIZE_FAILED => -4023
  | .LVM_PV_STILL_ADDED => -4024
  | .LVM_PV_REMOVE_NOT_FOUND => -4025
  | .LVM_CREATE_LV_INVALID_VOLUME => -4026
  | .LVM_REMOVE_LV_INVALID_VOLUME => -4027
  | .LVM_RESIZE_LV_INVALID_VOLUME => -4028
  | .LVM_CHANGE_READONLY => -4029
  | .LVM_CHECK_RESIZE_INVALID_VOLUME => -4030
  | .LVM_COMMIT_NOTHING_TODO => -4031
  | .FSTAB_ENTRY_NOT_FOUND => -5000
  | .FSTAB_CHANGE_PREFIX_IMPOSSIBLE => -5001
  | .FSTAB_REMOVE_ENTRY_NOT_FOUND => -5002
  | .FSTAB_UPDATE_ENTRY_NOT_FOUND => -5003
  | .FSTAB_ADD_ENTRY_FOUND => -5004
  | .CONTAINER_INTERNAL_ERROR => -99000
  | .CONTAINER_INVALID_VIRTUAL_CALL => -99001

/-- The identifier of each enumerator. -/
def ErrorCodes.name : ErrorCodes → String
  | .DISK_CREATE_PARTITION_OVERLAPS_EXISTING => "DISK_CREATE_PARTITION_OVERLAPS_EXISTING"
  | .DISK_CREATE_PARTITION_EXCEEDS_DISK => "DISK_CREATE_PARTITION_EXCEEDS_DISK"
  | .DISK_CREATE_PARTITION_EXT_ONLY_ONCE => "DISK_CREATE_PARTITION_EXT_ONLY_ONCE"
  | .DISK_CREATE_PARTITION_EXT_IMPOSSIBLE => "DISK_CREATE_PARTITION_EXT_IMPOSSIBLE"
  | .DISK_CREATE_PARTITION_NO_FREE_NUMBER => "DISK_CREATE_PARTITION_NO_FREE_NUMBER"
  | .DISK_CREATE_PARTITION_INVALID_VOLUME => "DISK_CREATE_PARTITION_INVALID_VOLUME"
  | .DISK_CREATE_PARTITION_INVALID_TYPE => "DISK_CREATE_PARTITION_INVALID_TYPE"
  | .DISK_CREATE_PARTITION_PARTED_FAILED => "DISK_CREATE_PARTITION_PARTED_FAILED"
  | .DISK_CREATE_PARTITION_NOT_FOUND => "DISK_CREATE_PARTITION_NOT_FOUND"
  | .DISK_CREATE_PARTITION_LOGICAL_NO_EXT => "DISK_CREATE_PARTITION_LOGICAL_NO_EXT"
  | .DISK_CREATE_PARTITION_LOGICAL_OUTSIDE_EXT => "DISK_CREATE_PARTITION_LOGICAL_OUTSIDE_EXT"
  | .DISK_SET_TYPE_INVALID_VOLUME => "DISK_SET_TYPE_INVALID_VOLUME"
  | .DISK_SET_TYPE_PARTED_FAILED => "DISK_SET_TYPE_PARTED_FAILED"
  | .DISK_SET_LABEL_PARTED_FAILED => "DISK_SET_LABEL_PARTED_FAILED"
  | .DISK_REMOVE_PARTITION_NOT_FOUND => "DISK_REMOVE_PARTITION_NOT_FOUND"
  | .DISK_REMOVE_PARTITION_PARTED_FAILED => "DISK_REMOVE_PARTITION_PARTED_FAILED"
  | .DISK_REMOVE_PARTITION_INVALID_VOLUME => "DISK_REMOVE_PARTITION_INVALID_VOLUME"
  | .DISK_REMOVE_PARTITION_LIST_ERASE => "DISK_REMOVE_PARTITION_LIST_ERASE"
  | .DISK_CHANGE_PARTITION_ID_NOT_FOUND => "DISK_CHANGE_PARTITION_ID_NOT_FOUND"
  | .DISK_DESTROY_TABLE_INVALID_LABEL => "DISK_DESTROY_TABLE_INVALID_LABEL"
  | .DISK_CREATE_PARTITION_ZERO_SIZE => "DISK_CREATE_PARTITION_ZERO_SIZE"
  | .DISK_CHANGE_READONLY => "DISK_CHANGE_READONLY"
  | .DISK_RESIZE_PARTITION_INVALID_VOLUME => "DISK_RESIZE_PARTITION_INVALID_VOLUME"
  | .DISK_RESIZE_PARTITION_PARTED_FAILED => "DISK_RESIZE_PARTITION_PARTED_FAILED"
  | .DISK_RESIZE_PARTITION_NOT_FOUND => "DISK_RESIZE_PARTITION_NOT_FOUND"
  | .DISK_RESIZE_NO_SPACE => "DISK_RESIZE_NO_SPACE"
  | .DISK_CHECK_RESIZE_INVALID_VOLUME => "DISK_CHECK_RESIZE_INVALID_VOLUME"
  | .DISK_REMOVE_PARTITION_CREATE_NOT_FOUND => "DISK_REMOVE_PARTITION_CREATE_NOT_FOUND"
  | .DISK_COMMIT_NOTHING_TODO => "DISK_COMMIT_NOTHING_TODO"
  | .DISK_CREATE_PARTITION_NO_SPACE => "DISK_CREATE_PARTITION_NO_SPACE"
  | .STORAGE_DISK_NOT_FOUND => "STORAGE_DISK_NOT_FOUND"
  | .STORAGE_VOLUME_NOT_FOUND => "STORAGE_VOLUME_NOT_FOUND"
  | .STORAGE_REMOVE_PARTITION_INVALID_CONTAINER => "STORAGE_REMOVE_PARTITION_INVALID_CONTAINER"
  | .STORAGE_CHANGE_PARTITION_ID_INVALID_CONTAINER => "STORAGE_CHANGE_PARTITION_ID_INVALID_CONTAINER"
  | .STORAGE_CHANGE_READONLY => "STORAGE_CHANGE_READONLY"
  | .STORAGE_DISK_USED_BY => "STORAGE_DISK_USED_BY"
  | .STORAGE_LVM_VG_EXISTS => "STORAGE_LVM_VG_EXISTS"
  | .STORAGE_LVM_VG_NOT_FOUND => "STORAGE_LVM_VG_NOT_FOUND"
  | .STORAGE_LVM_INVALID_DEVICE => "STORAGE_LVM_INVALID_DEVICE"
  | .STORAGE_CONTAINER_NOT_FOUND => "STORAGE_CONTAINER_NOT_FOUND"
  | .STORAGE_VG_INVALID_NAME => "STORAGE_VG_INVALID_NAME"
  | .VOLUME_COMMIT_UNKNOWN_STAGE => "VOLUME_COMMIT_UNKNOWN_STAGE"
  | .VOLUME_FSTAB_EMPTY_MOUNT => "VOLUME_FSTAB_EMPTY_MOUNT"
  | .VOLUME_UMOUNT_FAILED => "VOLUME_UMOUNT_FAILED"
  | .VOLUME_MOUNT_FAILED => "VOLUME_MOUNT_FAILED"
  | .VOLUME_FORMAT_DD_FAILED => "VOLUME_FORMAT_DD_FAILED"
  | .VOLUME_FORMAT_UNKNOWN_FS => "VOLUME_FORMAT_UNKNOWN_FS"
  | .VOLUME_FORMAT_FS_UNDETECTED => "VOLUME_FORMAT_FS_UNDETECTED"
  | .VOLUME_FORMAT_FS_TOO_SMALL => "VOLUME_FORMAT_FS_TOO_SMALL"
  | .VOLUME_FORMAT_FAILED => "VOLUME_FORMAT_FAILED"
  | .VOLUME_TUNE2FS_FAILED => "VOLUME_TUNE2FS_FAILED"
  | .VOLUME_MKLABEL_FS_UNABLE => "VOLUME_MKLABEL_FS_UNABLE"
  | .VOLUME_MKLABEL_FAILED => "VOLUME_MKLABEL_FAILED"
  | .VOLUME_LOSETUP_NO_LOOP => "VOLUME_LOSETUP_NO_LOOP"
  | .VOLUME_LOSETUP_FAILED => "VOLUME_LOSETUP_FAILED"
  | .VOLUME_CRYPT_NO_PWD => "VOLUME_CRYPT_NO_PWD"
  | .VOLUME_CRYPT_PWD_TOO_SHORT => "VOLUME_CRYPT_PWD_TOO_SHORT"
  | .VOLUME_CRYPT_NOT_DETECTED => "VOLUME_CRYPT_NOT_DETECTED"
  | .VOLUME_FORMAT_EXTENDED_UNSUPPORTED => "VOLUME_FORMAT_EXTENDED_UNSUPPORTED"
  | .VOLUME_MOUNT_EXTENDED_UNSUPPORTED => "VOLUME_MOUNT_EXTENDED_UNSUPPORTED"
  | .VOLUME_MOUNT_POINT_INAVLID => "VOLUME_MOUNT_POINT_INAVLID"
  | .VOLUME_MOUNTBY_NOT_ENCRYPTED => "VOLUME_MOUNTBY_NOT_ENCRYPTED"
  | .VOLUME_MOUNTBY_UNSUPPORTED_BY_FS => "VOLUME_MOUNTBY_UNSUPPORTED_BY_FS"
  | .VOLUME_LABEL_NOT_SUPPORTED => "VOLUME_LABEL_NOT_SUPPORTED"
  | .VOLUME_LABEL_TOO_LONG => "VOLUME_LABEL_TOO_LONG"
  | .VOLUME_LABEL_WHILE_MOUNTED => "VOLUME_LABEL_WHILE_MOUNTED"
  | .VOLUME_RESIZE_UNSUPPORTED_BY_FS => "VOLUME_RESIZE_UNSUPPORTED_BY_FS"
  | .VOLUME_RESIZE_UNSUPPORTED_BY_CONTAINER => "VOLUME_RESIZE_UNSUPPORTED_BY_CONTAINER"
  | .VOLUME_RESIZE_FAILED => "VOLUME_RESIZE_FAILED"
  | .VOLUME_ALREADY_IN_USE => "VOLUME_ALREADY_IN_USE"
  | .LVM_CREATE_PV_FAILED => "LVM_CREATE_PV_FAILED"
  | .LVM_PE_SIZE_INVALID => "LVM_PE_SIZE_INVALID"
  | .LVM_PV_ALREADY_CONTAINED => "LVM_PV_ALREADY_CONTAINED"
  | .LVM_PV_DEVICE_UNKNOWN => "LVM_PV_DEVICE_UNKNOWN"
  | .LVM_PV_DEVICE_USED => "LVM_PV_DEVICE_USED"
  | .LVM_VG_HAS_NONE_PV => "LVM_VG_HAS_NONE_PV"
  | .LVM_PV_NOT_FOUND => "LVM_PV_NOT_FOUND"
  | .LVM_REMOVE_PV_SIZE_NEEDED => "LVM_REMOVE_PV_SIZE_NEEDED"
  | .LVM_REMOVE_PV_IN_USE => "LVM_REMOVE_PV_IN_USE"
  | .LVM_LV_INVALID_NAME => "LVM_LV_INVALID_NAME"
  | .LVM_LV_DUPLICATE_NAME => "LVM_LV_DUPLICATE_NAME"
  | .LVM_LV_NO_SPACE => "LVM_LV_NO_SPACE"
  | .LVM_LV_NO_SPACE_STRIPED => "LVM_LV_NO_SPACE_STRIPED"
  | .LVM_LV_NO_SPACE_SINGLE => "LVM_LV_NO_SPACE_SINGLE"
  | .LVM_LV_UNKNOWN_NAME => "LVM_LV_UNKNOWN_NAME"
  | .LVM_LV_PE_DEV_NOT_FOUND => "LVM_LV_PE_DEV_NOT_FOUND"
  | .LVM_LV_NOT_IN_LIST => "LVM_LV_NOT_IN_LIST"
  | .LVM_VG_CREATE_FAILED => "LVM_VG_CREATE_FAILED"
  | .LVM_VG_EXTEND_FAILED => "LVM_VG_EXTEND_FAILED"
  | .LVM_VG_REDUCE_FAILED => "LVM_VG_REDUCE_FAILED"
  | .LVM_VG_REMOVE_FAILED => "LVM_VG_REMOVE_FAILED"
  | .LVM_LV_CREATE_FAILED => "LVM_LV_CREATE_FAILED"
  | .LVM_LV_REMOVE_FAILED => "LVM_LV_REMOVE_FAILED"
  | .LVM_LV_RESIZE_FAILED => "LVM_LV_RESIZE_FAILED"
  | .LVM_PV_STILL_ADDED => "LVM_PV_STILL_ADDED"
  | .LVM_PV_REMOVE_NOT_FOUND => "LVM_PV_REMOVE_NOT_FOUND"
  | .LVM_CREATE_LV_INVALID_VOLUME => "LVM_CREATE_LV_INVALID_VOLUME"
  | .LVM_REMOVE_LV_INVALID_VOLUME => "LVM_REMOVE_LV_INVALID_VOLUME"
  | .LVM_RESIZE_LV_INVALID_VOLUME => "LVM_RESIZE_LV_INVALID_VOLUME"
  | .LVM_CHANGE_READONLY => "LVM_CHANGE_READONLY"
  | .LVM_CHECK_RESIZE_INVALID_VOLUME => "LVM_CHECK_RESIZE_INVALID_VOLUME"
  | .LVM_COMMIT_NOTHING_TODO => "LVM_COMMIT_NOTHING_TODO"
  | .FSTAB_ENTRY_NOT_FOUND => "FSTAB_ENTRY_NOT_FOUND"
  | .FSTAB_CHANGE_PREFIX_IMPOSSIBLE => "FSTAB_CHANGE_PREFIX_IMPOSSIBLE"
  | .FSTAB_REMOVE_ENTRY_NOT_FOUND => "FSTAB_REMOVE_ENTRY_NOT_FOUND"
  | .FSTAB_UPDATE_ENTRY_NOT_FOUND => "FSTAB_UPDATE_ENTRY_NOT_FOUND"
  | .FSTAB_ADD_ENTRY_FOUND => "FSTAB_ADD_ENTRY_FOUND"
  | .CONTAINER_INTERNAL_ERROR => "CONTAINER_INTERNAL_ERROR"
  | .CONTAINER_INVALID_VIRTUAL_CALL => "CONTAINER_INVALID_VIRTUAL_CALL"

/-- All enumerators, in the order of their declaration. -/
def ErrorCodes.all : List ErrorCodes := [
  ErrorCodes.DISK_CREATE_PARTITION_OVERLAPS_EXISTING,
  ErrorCodes.DISK_CREATE_PARTITION_EXCEEDS_DISK,
  ErrorCodes.DISK_CREATE_PARTITION_EXT_ONLY_ONCE,
  ErrorCodes.DISK_CREATE_PARTITION_EXT_IMPOSSIBLE,
  ErrorCodes.DISK_CREATE_PARTITION_NO_FREE_NUMBER,
  ErrorCodes.DISK_CREATE_PARTITION_INVALID_VOLUME,
  ErrorCodes.DISK_CREATE_PARTITION_INVALID_TYPE,
  ErrorCodes.DISK_CREATE_PARTITION_PARTED_FAILED,
  ErrorCodes.DISK_CREATE_PARTITION_NOT_FOUND,
  ErrorCodes.DISK_CREATE_PARTITION_LOGICAL_NO_EXT,
  ErrorCodes.DISK_CREATE_PARTITION_LOGICAL_OUTSIDE_EXT,
  ErrorCodes.DISK_SET_TYPE_INVALID_VOLUME,
  ErrorCodes.DISK_SET_TYPE_PARTED_FAILED,
  ErrorCodes.DISK_SET_LABEL_PARTED_FAILED,
  ErrorCodes.DISK_REMOVE_PARTITION_NOT_FOUND,
  ErrorCodes.DISK_REMOVE_PARTITION_PARTED_FAILED,
  ErrorCodes.DISK_REMOVE_PARTITION_INVALID_VOLUME,
  ErrorCodes.DISK_REMOVE_PARTITION_LIST_ERASE,
  ErrorCodes.DISK_CHANGE_PARTITION_ID_NOT_FOUND,
  ErrorCodes.DISK_DESTROY_TABLE_INVALID_LABEL,
  ErrorCodes.DISK_CREATE_PARTITION_ZERO_SIZE,
  ErrorCodes.DISK_CHANGE_READONLY,
  ErrorCodes.DISK_RESIZE_PARTITION_INVALID_VOLUME,
  ErrorCodes.DISK_RESIZE_PARTITION_PARTED_FAILED,
  ErrorCodes.DISK_RESIZE_PARTITION_NOT_FOUND,
  ErrorCodes.DISK_RESIZE_NO_SPACE,
  ErrorCodes.DISK_CHECK_RESIZE_INVALID_VOLUME,
  ErrorCodes.DISK_REMOVE_PARTITION_CREATE_NOT_FOUND,
  ErrorCodes.DISK_COMMIT_NOTHING_TODO,
  ErrorCodes.DISK_CREATE_PARTITION_NO_SPACE,
  ErrorCodes.STORAGE_DISK_NOT_FOUND,
  ErrorCodes.STORAGE_VOLUME_NOT_FOUND,
  ErrorCodes.STORAGE_REMOVE_PARTITION_INVALID_CONTAINER,
  ErrorCodes.STORAGE_CHANGE_PARTITION_ID_INVALID_CONTAINER,
  ErrorCodes.STORAGE_CHANGE_READONLY,
  ErrorCodes.STORAGE_DISK_USED_BY,
  ErrorCodes.STORAGE_LVM_VG_EXISTS,
  ErrorCodes.STORAGE_LVM_VG_NOT_FOUND,
  ErrorCodes.STORAGE_LVM_INVALID_DEVICE,
  ErrorCodes.STORAGE_CONTAINER_NOT_FOUND,
  ErrorCodes.STORAGE_VG_INVALID_NAME,
  ErrorCodes.VOLUME_COMMIT_UNKNOWN_STAGE,
  ErrorCodes.VOLUME_FSTAB_EMPTY_MOUNT,
  ErrorCodes.VOLUME_UMOUNT_FAILED,
  ErrorCodes.VOLUME_MOUNT_FAILED,
  ErrorCodes.VOLUME_FORMAT_DD_FAILED,
  ErrorCodes.VOLUME_FORMAT_UNKNOWN_FS,
  ErrorCodes.VOLUME_FORMAT_FS_UNDETECTED,
  ErrorCodes.VOLUME_FORMAT_FS_TOO_SMALL,
  ErrorCodes.VOLUME_FORMAT_FAILED,
  ErrorCodes.VOLUME_TUNE2FS_FAILED,
  ErrorCodes.VOLUME_MKLABEL_FS_UNABLE,
  ErrorCodes.VOLUME_MKLABEL_FAILED,
  ErrorCodes.VOLUME_LOSETUP_NO_LOOP,
  ErrorCodes.VOLUME_LOSETUP_FAILED,
  ErrorCodes.VOLUME_CRYPT_NO_PWD,
  ErrorCodes.VOLUME_CRYPT_PWD_TOO_SHORT,
  ErrorCodes.VOLUME_CRYPT_NOT_DETECTED,
  ErrorCodes.VOLUME_FORMAT_EXTENDED_UNSUPPORTED,
  ErrorCodes.VOLUME_MOUNT_EXTENDED_UNSUPPORTED,
  ErrorCodes.VOLUME_MOUNT_POINT_INAVLID,
  ErrorCodes.VOLUME_MOUNTBY_NOT_ENCRYPTED,
  ErrorCodes.VOLUME_MOUNTBY_UNSUPPORTED_BY_FS,
  ErrorCodes.VOLUME_LABEL_NOT_SUPPORTED,
  ErrorCodes.VOLUME_LABEL_TOO_LONG,
  ErrorCodes.VOLUME_LABEL_WHILE_MOUNTED,
  ErrorCodes.VOLUME_RESIZE_UNSUPPORTED_BY_FS,
  ErrorCodes.VOLUME_RESIZE_UNSUPPORTED_BY_CONTAINER,
  ErrorCodes.VOLUME_RESIZE_FAILED,
  ErrorCodes.VOLUME_ALREADY_IN_USE,
  ErrorCodes.LVM_CREATE_PV_FAILED,
  ErrorCodes.LVM_PE_SIZE_INVALID,
  ErrorCodes.LVM_PV_ALREADY_CONTAINED,
  ErrorCodes.LVM_PV_DEVICE_UNKNOWN,
  ErrorCodes.LVM_PV_DEVICE_USED,
  ErrorCodes.LVM_VG_HAS_NONE_PV,
  ErrorCodes.LVM_PV_NOT_FOUND,
  ErrorCodes.LVM_REMOVE_PV_SIZE_NEEDED,
  ErrorCodes.LVM_REMOVE_PV_IN_USE,
  ErrorCodes.LVM_LV_INVALID_NAME,
  ErrorCodes.LVM_LV_DUPLICATE_NAME,
  ErrorCodes.LVM_LV_NO_SPACE,
  ErrorCodes.LVM_LV_NO_SPACE_STRIPED,
  ErrorCodes.LVM_LV_NO_SPACE_SINGLE,
  ErrorCodes.LVM_LV_UNKNOWN_NAME,
  ErrorCodes.LVM_LV_PE_DEV_NOT_FOUND,
  ErrorCodes.LVM_LV_NOT_IN_LIST,
  ErrorCodes.LVM_VG_CREATE_FAILED,
  ErrorCodes.LVM_VG_EXTEND_FAILED,
  ErrorCodes.LVM_VG_REDUCE_FAILED,
  ErrorCodes.LVM_VG_REMOVE_FAILED,
  ErrorCodes.LVM_LV_CREATE_FAILED,
  ErrorCodes.LVM_LV_REMOVE_FAILED,
  ErrorCodes.LVM_LV_RESIZE_FAILED,
  ErrorCodes.LVM_PV_STILL_ADDED,
  ErrorCodes.LVM_PV_REMOVE_NOT_FOUND,
  ErrorCodes.LVM_CREATE_LV_INVALID_VOLUME,
  ErrorCodes.LVM_REMOVE_LV_INVALID_VOLUME,
  ErrorCodes.LVM_RESIZE_LV_INVALID_VOLUME,
  ErrorCodes.LVM_CHANGE_READONLY,
  ErrorCodes.LVM_CHECK_RESIZE_INVALID_VOLUME,
  ErrorCodes.LVM_COMMIT_NOTHING_TODO,
  ErrorCodes.FSTAB_ENTRY_NOT_FOUND,
  ErrorCodes.FSTAB_CHANGE_PREFIX_IMPOSSIBLE,
  ErrorCodes.FSTAB_REMOVE_ENTRY_NOT_FOUND,
  ErrorCodes.FSTAB_UPDATE_ENTRY_NOT_FOUND,
  ErrorCodes.FSTAB_ADD_ENTRY_FOUND,
  ErrorCodes.CONTAINER_INTERNAL_ERROR,
  ErrorCodes.CONTAINER_INVALID_VIRTUAL_CALL]

/-- The subsystems the identifiers are grouped by, through their first word. -/
inductive Subsystem
  | DISK | STORAGE | VOLUME | LVM | FSTAB | CONTAINER
  deriving DecidableEq

/-- The first word of the identifiers of a subsystem, underscore included. -/
def Subsystem.word : Subsystem → String
  | .DISK => "DISK_"
  | .STORAGE => "STORAGE_"
  | .VOLUME => "VOLUME_"
  | .LVM => "LVM_"
  | .FSTAB => "FSTAB_"
  | .CONTAINER => "CONTAINER_"

/-- All subsystems. -/
def Subsystem.all : List Subsystem := [.DISK, .STORAGE, .VOLUME, .LVM, .FSTAB, .CONTAINER]

/-- An error code belongs to a subsystem when its identifier starts with the word of it. -/
def ErrorCodes.belongs (e : ErrorCodes) (s : Subsystem) : Bool :=
  s.word.toList.isPrefixOf e.name.toList

/-- The values of the codes of a subsystem, in the order of their declaration. -/
def Subsystem.values (s : Subsystem) : List Int :=
  (ErrorCodes.all.filter (fun e => e.belongs s)).map ErrorCodes.value

/-- The `n` integers `base, base - 1, ..`, descending. -/
def descending (base : Int) (n : Nat) : List Int :=
  (List.range n).map (fun i => base - (i : Int))

/-! ## `commit` -/

/-- One pending action, as far as `commit` looks at it: the terminal status of the external
tool run for it, and the error code its kind of action is classified with when that tool
fails. -/
structure PendingAction where
  tool_status : Int
  failure : ErrorCodes

/-- The commit engines that have a "nothing to do" code among the error codes: that of the
disks and that of LVM. -/
inductive CommitEngine
  | disk
  | lvm
  deriving DecidableEq

/-- The "nothing to do" code of a commit engine. -/
def CommitEngine.nothing_todo : CommitEngine → ErrorCodes
  | .disk => ErrorCodes.DISK_COMMIT_NOTHING_TODO
  | .lvm => ErrorCodes.LVM_COMMIT_NOTHING_TODO

/-- Modelled from the spec: the walk of `commit` through the pending actions, whose code is
not among the sources. Section 4.2: the actions are run in their order; a tool status of
zero moves on to the next action; a status that is not zero stops the run, with the failure
code of the kind of action; zero is returned when all have succeeded. -/
def commit_actions : List PendingAction → Int
  | [] => 0
  | action :: rest =>
    if action.tool_status = 0 then commit_actions rest else action.failure.value

/-- Modelled from the spec: the implementation of `StorageInterface::commit`, which the
header declares pure virtual (line 698) and which is not among the sources. Section 4.2:
called with an empty list of pending actions it returns the distinct "nothing to do"
status rather than success; otherwise it runs the pending actions. -/
def commit (engine : CommitEngine) : List PendingAction → Int
  | [] => engine.nothing_todo.value
  | action :: rest => commit_actions (action :: rest)

end storage

namespace storage

/-! ## Theorems on the error codes -/

/-- Every enumerator is listed in `ErrorCodes.all`. -/
theorem ErrorCodes.mem_all (e : ErrorCodes) : e ∈ ErrorCodes.all := by
  cases e <;> decide

/-- The values of `ErrorCodes.all` are free of repetitions. -/
theorem ErrorCodes.nodup_values : (ErrorCodes.all.map ErrorCodes.value).Nodup := by
  decide

/-- C8: the enumeration is injective, two different error codes have different integer
values; in particular the codes for "overlaps existing", "exceeds disk" and "no free
number" of `createPartition` are pairwise different. -/
theorem ErrorCodes.value_injective :
    Function.Injective ErrorCodes.value ∧
    ErrorCodes.DISK_CREATE_PARTITION_OVERLAPS_EXISTING.value
      ≠ ErrorCodes.DISK_CREATE_PARTITION_EXCEEDS_DISK.value ∧
    ErrorCodes.DISK_CREATE_PARTITION_OVERLAPS_EXISTING.value
      ≠ ErrorCodes.DISK_CREATE_PARTITION_NO_FREE_NUMBER.value ∧
    ErrorCodes.DISK_CREATE_PARTITION_EXCEEDS_DISK.value
      ≠ ErrorCodes.DISK_CREATE_PARTITION_NO_FREE_NUMBER.value := by
  refine ⟨?_, by decide, by decide, by decide⟩
  intro a b h
  exact List.inj_on_of_nodup_map ErrorCodes.nodup_values (ErrorCodes.mem_all a)
    (ErrorCodes.mem_all b) h

/-- C9: every value of the enumeration is strictly negative, so none equals the success
value zero. -/
theorem ErrorCodes.value_negative (e : ErrorCodes) : e.value < 0 ∧ e.value ≠ 0 := by
  cases e <;> decide

/-- C10: the codes of each subsystem lie in the range reserved for it, the six ranges are
pairwise disjoint, every code belongs to exactly one subsystem, and the values of each
subsystem, in declaration order, are the consecutive integers descending from the first
value of its range. -/
theorem ErrorCodes.subsystem_ranges :
    (∀ e : ErrorCodes,
      (e.belongs .DISK = true → -1999 ≤ e.value ∧ e.value ≤ -1000) ∧
      (e.belongs .STORAGE = true → -2999 ≤ e.value ∧ e.value ≤ -2000) ∧
      (e.belongs .VOLUME = true → -3999 ≤ e.value ∧ e.value ≤ -3000) ∧
      (e.belongs .LVM = true → -4999 ≤ e.value ∧ e.value ≤ -4000) ∧
      (e.belongs .FSTAB = true → -5999 ≤ e.value ∧ e.value ≤ -5000) ∧
      (e.belongs .CONTAINER = true → -99999 ≤ e.value ∧ e.value ≤ -99000)) ∧
    List.Pairwise (fun r r' : Int × Int => r.2 < r'.1 ∨ r'.2 < r.1)
      [(-1999, -1000), (-2999, -2000), (-3999, -3000), (-4999, -4000), (-5999, -5000),
        (-99999, -99000)] ∧
    (∀ e : ErrorCodes, ∃! s : Subsystem, e.belongs s = true) ∧
    Subsystem.values .DISK = descending (-1000) 30 ∧
    Subsystem.values .STORAGE = descending (-2000) 11 ∧
    Subsystem.values .VOLUME = descending (-3000) 29 ∧
    Subsystem.values .LVM = descending (-4000) 32 ∧
    Subsystem.values .FSTAB = descending (-5000) 5 ∧
    Subsystem.values .CONTAINER = descending (-99000) 2 := by
  refine ⟨?_, by decide, ?_, by decide, by decide, by decide, by decide, by decide, by decide⟩
  · intro e
    cases e <;> decide
  · intro e
    have key : ∀ e : ErrorCodes, ∃ s : Subsystem, e.belongs s = true ∧
        ∀ t : Subsystem, e.belongs t = true → t = s := by
      intro e
      cases e <;> first
        | exact ⟨.DISK, by decide, by intro t; cases t <;> decide⟩
        | exact ⟨.STORAGE, by decide, by intro t; cases t <;> decide⟩
        | exact ⟨.VOLUME, by decide, by intro t; cases t <;> decide⟩
        | exact ⟨.LVM, by decide, by intro t; cases t <;> decide⟩
        | exact ⟨.FSTAB, by decide, by intro t; cases t <;> decide⟩
        | exact ⟨.CONTAINER, by decide, by intro t; cases t <;> decide⟩
    obtain ⟨s, hs, huniq⟩ := key e
    exact ⟨s, hs, huniq⟩

end storage

namespace Y2Parted

/-! ## The text built by `report_directory` -/

set_option maxRecDepth 100000 in
/-- On every byte but NUL the test of the loop is the allow-list of the specification. -/
theorem keep_eq_allowed : ∀ b : Byte, b ≠ 0 → keep b = allowed b := by
  decide

/-- The NUL byte passes the test of the loop: `index` finds the terminator of `".-_"`. -/
theorem keep_zero : keep 0 = true ∧ allowed 0 = false := by
  decide

/-- A store right behind the bytes written so far. -/
theorem store_append (acc : List Byte) (ch : Byte) (h : acc.length < 64) :
    store (acc ++ List.replicate (64 - acc.length) 0) acc.length ch
      = some ((acc ++ [ch]) ++ List.replicate (64 - (acc ++ [ch]).length) 0) := by
  unfold store
  have hlen : (acc ++ List.replicate (64 - acc.length) (0 : Byte)).length = 64 := by
    simp; omega
  rw [if_pos (by rw [hlen]; exact h)]
  have hrep : List.replicate (64 - acc.length) (0 : Byte)
      = 0 :: List.replicate (64 - (acc.length + 1)) 0 := by
    have : 64 - acc.length = (64 - (acc.length + 1)) + 1 := by omega
    rw [this, List.replicate_succ]
  rw [List.set_append_right _ _ (le_refl _), hrep]
  simp

/-- The kept bytes after the loop has looked at `rest`, given the bytes `acc` kept before. -/
theorem take_filter_cons (ch : Byte) (rest acc : List Byte) (hk : acc.length < 8) :
    (acc ++ [ch]) ++ (rest.filter keep).take (8 - (acc ++ [ch]).length)
      = acc ++ (ch :: rest.filter keep).take (8 - acc.length) := by
  have h : 8 - acc.length = (8 - (acc ++ [ch]).length) + 1 := by
    simp; omega
  rw [h, List.take_succ_cons]
  simp

/-- The filter loop, started behind the bytes `pre` of the message with the bytes `acc` kept,
ends and has kept, of the bytes `rest` up to `length`, the first that pass the test, at most
eight in all. -/
theorem filter_loop_eq (buf tail : List Byte) (len : Int) :
    ∀ (rest pre acc : List Byte) (fuel : Nat),
      buf = pre ++ rest ++ tail → len.toNat = pre.length + rest.length →
      acc.length ≤ 8 → rest.length < fuel →
      filter_loop buf len fuel pre.length acc.length
          (acc ++ List.replicate (64 - acc.length) 0)
        = some ((acc ++ (rest.filter keep).take (8 - acc.length)).length,
            (acc ++ (rest.filter keep).take (8 - acc.length)) ++
              List.replicate
                (64 - (acc ++ (rest.filter keep).take (8 - acc.length)).length) 0) := by
  intro rest
  induction rest with
  | nil =>
    intro pre acc fuel hbuf hlen hacc hfuel
    obtain ⟨f, rfl⟩ : ∃ f, fuel = f + 1 := ⟨fuel - 1, by omega⟩
    have hcond : ¬ (((pre.length : Nat) : Int) < len ∧ acc.length < 8) := by
      simp only [List.length_nil] at hlen
      omega
    simp [filter_loop, hcond]
  | cons ch rest ih =>
    intro pre acc fuel hbuf hlen hacc hfuel
    obtain ⟨f, rfl⟩ : ∃ f, fuel = f + 1 := ⟨fuel - 1, by omega⟩
    have hf : rest.length < f := by
      simp only [List.length_cons] at hfuel
      omega
    unfold filter_loop
    by_cases hk : acc.length < 8
    · have hcond : ((pre.length : Nat) : Int) < len ∧ acc.length < 8 := by
        refine ⟨?_, hk⟩
        simp only [List.length_cons] at hlen
        omega
      rw [if_pos hcond]
      have hget : buf[pre.length]? = some ch := by
        rw [hbuf, List.append_assoc, List.getElem?_append_right (le_refl _)]
        simp
      have hbuf' : buf = (pre ++ [ch]) ++ rest ++ tail := by
        rw [hbuf]
        simp
      have hlen' : len.toNat = (pre ++ [ch]).length + rest.length := by
        rw [hlen]
        simp only [List.length_cons, List.length_append, List.length_nil]
        omega
      have hpre : (pre ++ [ch]).length = pre.length + 1 := by simp
      have hacc' : (acc ++ [ch]).length = acc.length + 1 := by simp
      rw [hget]
      by_cases hkeep : keep ch = true
      · have htest : (isalnum (charToInt ch) || index (lit ".-_") (charToInt ch)) = true :=
          hkeep
        have step := ih (pre ++ [ch]) (acc ++ [ch]) f hbuf' hlen' (by omega) hf
        rw [hpre, hacc'] at step
        simp only [htest, if_true, store_append acc ch (by omega)]
        rw [hacc', step, List.filter_cons_of_pos hkeep, ← hacc',
          take_filter_cons ch rest acc hk]
      · have htest : (isalnum (charToInt ch) || index (lit ".-_") (charToInt ch)) = false := by
          simpa [keep] using hkeep
        have step := ih (pre ++ [ch]) acc f hbuf' hlen' hacc hf
        rw [hpre] at step
        simp only [htest, Bool.false_eq_true, if_false]
        rw [step, List.filter_cons_of_neg hkeep]
    · have hcond : ¬ (((pre.length : Nat) : Int) < len ∧ acc.length < 8) := fun h => hk h.2
      have h8 : 8 - acc.length = 0 := by omega
      rw [if_neg hcond, h8]
      simp

/-- The length of a message as `strlen` sees it: the bytes before its first NUL. -/
theorem strlen_c_str (s : CxxString) :
    strlen (c_str s) = (s.takeWhile (fun b => b ≠ 0)).length := by
  unfold strlen c_str
  induction s with
  | nil => simp
  | cons b s ih =>
    by_cases hb : b = 0
    · simp [List.takeWhile_cons, hb]
    · simp only [List.cons_append, List.takeWhile_cons, hb, ne_eq, not_false_eq_true,
        decide_True, if_true, List.length_cons, ih]

/-- The conversion to `int` never yields more than the converted length. -/
theorem toInt_toNat_le (m : Nat) : (toInt m).toNat ≤ m := by
  unfold toInt
  have h := Nat.mod_le m (2 ^ 32)
  split <;> omega

/-- The loop looks at bytes in front of the first NUL only. -/
theorem scanned_le (s : CxxString) :
    scanned s ≤ (s.takeWhile (fun b => b ≠ 0)).length := by
  unfold scanned
  rw [strlen_c_str]
  exact toInt_toNat_le _

/-- No byte the loop looks at is NUL. -/
theorem scanned_ne_zero (s : CxxString) : ∀ b ∈ s.take (scanned s), b ≠ 0 := by
  intro b hb
  have hle := scanned_le s
  have hsplit : ∀ n, n ≤ (s.takeWhile (fun b => b ≠ 0)).length →
      s.take n = (s.takeWhile (fun b => b ≠ 0)).take n := by
    intro n hn
    conv_lhs => rw [← List.takeWhile_append_dropWhile (fun b => decide (b ≠ 0)) s]
    rw [List.take_append_of_le_length hn]
  rw [hsplit _ hle] at hb
  have hmem := List.mem_takeWhile_imp (List.mem_of_mem_take hb)
  simpa using hmem

/-- The constructor `string(message_final)` returns the bytes written, when none of them is
NUL and they do not fill the array. -/
theorem string_of_chars_append (acc : List Byte) (h0 : ∀ b ∈ acc, b ≠ 0) (n : Nat)
    (hn : 0 < n) : string_of_chars (acc ++ List.replicate n 0) = some acc := by
  unfold string_of_chars
  have hmem : (0 : Byte) ∈ acc ++ List.replicate n 0 := by
    have hrep : (0 : Byte) ∈ List.replicate n (0 : Byte) :=
      List.mem_replicate.mpr ⟨by omega, rfl⟩
    exact List.mem_append.mpr (Or.inr hrep)
  rw [if_pos hmem, List.takeWhile_append_of_pos (by simpa using h0)]
  simp [List.takeWhile_replicate]

/-- A store at index `k`, right behind the `k` bytes written so far. -/
theorem store_at (acc : List Byte) (k : Nat) (ch : Byte) (hk : acc.length = k)
    (h : k < 64) :
    store (acc ++ List.replicate (64 - acc.length) 0) k ch
      = some ((acc ++ [ch]) ++ List.replicate (64 - (acc ++ [ch]).length) 0) := by
  subst hk
  exact store_append acc ch h

/-- The bytes of the fixed suffix. -/
theorem suffix_eq : suffix = [46, 46, 46, 10] := by
  decide

/-- The text `report_directory` builds, for every message: of the bytes the loop may look
at, the first eight that pass its test, followed by the fixed suffix. -/
theorem build_message_final_eq (s : CxxString) :
    build_message_final s
      = some (((s.take (scanned s)).filter keep).take 8 ++ suffix) := by
  have hle : scanned s ≤ s.length :=
    le_trans (scanned_le s) (List.takeWhile_prefix _).length_le
  have hloop := filter_loop_eq (c_str s) (s.drop (scanned s) ++ [0])
      (toInt (strlen (c_str s))) (s.take (scanned s)) [] []
      ((toInt (strlen (c_str s))).toNat + 1)
      (by simp only [c_str, List.nil_append, ← List.append_assoc, List.take_append_drop])
      (by
        simp only [List.length_nil, List.length_take, Nat.zero_add]
        unfold scanned at hle ⊢
        omega)
      (by simp)
      (by
        simp only [List.length_take]
        unfold scanned
        omega)
  simp only [List.length_nil, List.nil_append, Nat.sub_zero] at hloop
  have hk8 : (((s.take (scanned s)).filter keep).take 8).length ≤ 8 :=
    List.length_take_le _ _
  have hz : ∀ b ∈ ((s.take (scanned s)).filter keep).take 8, b ≠ 0 := fun b hb =>
    scanned_ne_zero s b (List.mem_of_mem_filter (List.mem_of_mem_take hb))
  generalize ((s.take (scanned s)).filter keep).take 8 = kept at hloop hk8 hz ⊢
  unfold build_message_final
  simp only []
  rw [hloop]
  simp only []
  rw [store_at kept kept.length 46 rfl (by omega)]
  simp only []
  rw [store_at (kept ++ [46]) (kept.length + 1) 46 (by simp) (by omega)]
  simp only []
  rw [store_at (kept ++ [46] ++ [46]) (kept.length + 2) 46 (by simp) (by omega)]
  simp only []
  rw [store_at (kept ++ [46] ++ [46] ++ [46]) (kept.length + 3) 10 (by simp) (by omega)]
  simp only []
  rw [string_of_chars_append _ _ _ (by simp; omega), suffix_eq]
  · simp
  · intro b hb
    simp only [List.append_assoc, List.mem_append, List.mem_singleton] at hb
    rcases hb with hb | hb | hb | hb | hb
    · exact hz b hb
    all_goals subst hb; decide

/-- A message without NUL that is shorter than `2^31` bytes is looked at in full. -/
theorem scanned_eq_length (s : CxxString) (h0 : ∀ b ∈ s, b ≠ 0) (hlen : s.length < 2 ^ 31) :
    scanned s = s.length := by
  have htw : s.takeWhile (fun b => b ≠ 0) = s :=
    List.takeWhile_eq_self_iff.mpr (by simpa using h0)
  unfold scanned
  rw [strlen_c_str, htw]
  unfold toInt
  have hmod : s.length % 2 ^ 32 = s.length := Nat.mod_eq_of_lt (by omega)
  rw [hmod, if_pos hlen]
  simp

/-- On a list without NUL the test of the loop selects the allowed bytes. -/
theorem filter_keep_eq (l : List Byte) (h0 : ∀ b ∈ l, b ≠ 0) :
    l.filter keep = l.filter allowed := by
  apply List.filter_congr
  intro b hb
  exact keep_eq_allowed b (h0 b hb)

/-! ## The report functions in closed form -/

/-- The value and the events of `report_progress`. -/
theorem report_progress_eq (self : Y2PartedComponent) (trace : List Event) (m : CxxString) :
    report_progress self trace m =
      if callable self (trace ++ [Event.report_progress m]) self.progress_symbol then
        (if (answer self (trace ++ [Event.report_progress m]) self.progress_symbol
              (.integer (atol (c_str m)))).isVoid then YCPValue.void else RETURN_ERROR,
          trace ++ [Event.report_progress m] ++
            [Event.evaluateCall self.progress_symbol (.integer (atol (c_str m)))])
      else (YCPValue.void, trace ++ [Event.report_progress m]) := by
  unfold report_progress callable answer
  cases self.report_macro with
  | none => simp
  | some rm =>
    simp only []
    split <;> [split; rfl] <;> simp_all

/-- The value and the events of `report_directory`. -/
theorem report_directory_eq (self : Y2PartedComponent) (trace : List Event) (m : CxxString) :
    report_directory self trace m =
      some (if callable self (trace ++ [Event.report_directory m]) self.directory_symbol then
        (if (answer self (trace ++ [Event.report_directory m]) self.directory_symbol
              (.string (((m.take (scanned m)).filter keep).take 8 ++ suffix))).isVoid
            then YCPValue.void else RETURN_ERROR,
          trace ++ [Event.report_directory m] ++
            [Event.evaluateCall self.directory_symbol
              (.string (((m.take (scanned m)).filter keep).take 8 ++ suffix))])
      else (YCPValue.void, trace ++ [Event.report_directory m])) := by
  unfold report_directory callable answer
  cases self.report_macro with
  | none => simp
  | some rm =>
    simp only [build_message_final_eq]
    split <;> [split; rfl] <;> simp_all

/-- The value and the events of `report_exception`. -/
theorem report_exception_eq (self : Y2PartedComponent) (trace : List Event) (m : CxxString) :
    report_exception self trace m =
      if callable self (trace ++ [Event.report_exception m]) self.exception_symbol then
        (if (answer self (trace ++ [Event.report_exception m]) self.exception_symbol
              (.string m)).isVoid then YCPValue.void else RETURN_ERROR,
          trace ++ [Event.report_exception m] ++
            [Event.evaluateCall self.exception_symbol (.string m)])
      else (YCPValue.void, trace ++ [Event.report_exception m]) := by
  unfold report_exception callable answer
  cases self.report_macro with
  | none => simp
  | some rm =>
    simp only []
    split <;> [split; rfl] <;> simp_all

/-! ## The text handed to the directory callback -/

/-- For a message without NUL that is shorter than `2^31` bytes, the text handed to the
directory callback is the first `min(8, n)` allowed bytes of the message, in their order,
followed by the fixed suffix, where `n` is the number of allowed bytes. -/
theorem report_directory_text (self : Y2PartedComponent) (trace : List Event)
    (m : CxxString) (display : Y2Namespace)
    (hdisplay : self.report_macro = some display)
    (hcall : display.createFunctionCall (trace ++ [Event.report_directory m])
      self.directory_symbol = true)
    (h0 : ∀ b ∈ m, b ≠ 0) (hlen : m.length < 2 ^ 31) :
    ∃ val, report_directory self trace m = some (val,
      trace ++ [Event.report_directory m,
        Event.evaluateCall self.directory_symbol
          (.string ((m.filter allowed).take (min 8 (m.filter allowed).length) ++ suffix))]) := by
  have hc : callable self (trace ++ [Event.report_directory m]) self.directory_symbol
      = true := by
    simp [callable, hdisplay, hcall]
  have htake : (m.filter allowed).take (min 8 (m.filter allowed).length)
      = (m.filter allowed).take 8 := by
    rw [List.take_eq_take]
    simp
  rw [report_directory_eq, if_pos hc, scanned_eq_length m h0 hlen, List.take_length,
    filter_keep_eq m h0, htake]
  exact ⟨_, congrArg some (Prod.ext rfl (List.append_assoc _ _ _))⟩

set_option maxRecDepth 100000 in
/-- A concrete instance of `report_directory_text`. -/
theorem report_directory_text_witness :
    ∃ val, report_directory (sample_component (some quiet_display)) [] (lit "/mnt/win_c.1")
      = some (val, [] ++ [Event.report_directory (lit "/mnt/win_c.1"),
        Event.evaluateCall (lit "OnTarget") (.string
          (((lit "/mnt/win_c.1").filter allowed).take
            (min 8 ((lit "/mnt/win_c.1").filter allowed).length) ++ suffix))]) :=
  report_directory_text (sample_component (some quiet_display)) [] (lit "/mnt/win_c.1")
    quiet_display rfl rfl (by decide) (by decide)

/-- C1: a message of `2^31` letters `a` holds no NUL and its first eight allowed bytes are
`aaaaaaaa`, yet `report_directory` hands the bare suffix to the directory callback: the
`int` variable `length` is negative and the loop looks at no byte. -/
theorem report_directory_overlong :
    (∀ b ∈ List.replicate (2 ^ 31) (97 : Byte), b ≠ 0) ∧
    report_directory (sample_component (some quiet_display)) []
        (List.replicate (2 ^ 31) 97)
      = some (.void, [Event.report_directory (List.replicate (2 ^ 31) 97),
          Event.evaluateCall (lit "OnTarget") (.string (lit "...\n"))]) ∧
    ((List.replicate (2 ^ 31) (97 : Byte)).filter allowed).take
        (min 8 ((List.replicate (2 ^ 31) (97 : Byte)).filter allowed).length) ++ suffix
      = lit "aaaaaaaa...\n" := by
  have ha : allowed 97 = true := by decide
  have hscan : scanned (List.replicate (2 ^ 31) (97 : Byte)) = 0 := by
    unfold scanned
    have hp : (fun b : Byte => decide (b ≠ 0)) 97 = true := by decide
    rw [strlen_c_str, List.takeWhile_replicate, if_pos hp, List.length_replicate]
    decide
  refine ⟨?_, ?_, ?_⟩
  · intro b hb
    rw [(List.mem_replicate.mp hb).2]
    decide
  · have hc : callable (sample_component (some quiet_display))
        ([] ++ [Event.report_directory (List.replicate (2 ^ 31) 97)])
        (sample_component (some quiet_display)).directory_symbol = true := rfl
    rw [report_directory_eq, if_pos hc, hscan]
    rfl
  · rw [List.filter_replicate_of_pos ha, List.length_replicate, List.take_replicate]
    decide

set_option maxRecDepth 100000 in
/-- C2, as stated, fails: for the message `ab` the text handed to the directory callback is
`ab...` with a newline at its end, and the newline is not on the allow-list. -/
theorem report_directory_newline :
    report_directory (sample_component (some quiet_display)) [] (lit "ab")
      = some (.void, [Event.report_directory (lit "ab"),
          Event.evaluateCall (lit "OnTarget") (.string (lit "ab...\n"))]) ∧
    ¬ (∀ b ∈ lit "ab...\n", allowed b = true) := by
  decide

/-- C2, amended: for every message, the text handed to the directory callback is a run of
bytes that are all ASCII letters, digits or one of `.`, `-`, `_`, followed by one newline,
the last byte of the fixed suffix. -/
theorem report_directory_allowed (self : Y2PartedComponent) (trace : List Event)
    (m : CxxString) (display : Y2Namespace)
    (hdisplay : self.report_macro = some display)
    (hcall : display.createFunctionCall (trace ++ [Event.report_directory m])
      self.directory_symbol = true) :
    ∃ val body, report_directory self trace m = some (val,
        trace ++ [Event.report_directory m,
          Event.evaluateCall self.directory_symbol (.string (body ++ [10]))]) ∧
      ∀ b ∈ body, allowed b = true := by
  have hc : callable self (trace ++ [Event.report_directory m]) self.directory_symbol
      = true := by
    simp [callable, hdisplay, hcall]
  rw [report_directory_eq, if_pos hc, suffix_eq]
  refine ⟨_, ((m.take (scanned m)).filter keep).take 8 ++ [46, 46, 46],
    congrArg some (Prod.ext rfl ?_), ?_⟩
  · simp
  · intro b hb
    rcases List.mem_append.mp hb with hb | hb
    · have hmem := List.mem_filter.mp (List.mem_of_mem_take hb)
      rw [← keep_eq_allowed b (scanned_ne_zero m b hmem.1)]
      exact hmem.2
    · simp only [List.mem_cons, List.mem_singleton, List.not_mem_nil, or_false] at hb
      rcases hb with hb | hb | hb <;> subst hb <;> decide

/-- A concrete instance of `report_directory_allowed`, at a message with control bytes. -/
theorem report_directory_allowed_witness :
    ∃ val body, report_directory (sample_component (some failing_display)) []
        [47, 7, 109, 110, 116, 0, 200] = some (val,
        [] ++ [Event.report_directory [47, 7, 109, 110, 116, 0, 200],
          Event.evaluateCall (sample_component (some failing_display)).directory_symbol
            (.string (body ++ [10]))]) ∧
      ∀ b ∈ body, allowed b = true :=
  report_directory_allowed (sample_component (some failing_display)) []
    [47, 7, 109, 110, 116, 0, 200] failing_display rfl rfl

/-! ## The result of the report functions -/

/-- C5: each report function, when `report_macro` is NULL or no function call can be
created for its symbol, runs no callback (its entry is the only event) and returns void. -/
theorem report_without_callback (self : Y2PartedComponent) (trace : List Event)
    (m : CxxString) :
    ((self.report_macro = none ∨ ∃ display, self.report_macro = some display ∧
        display.createFunctionCall (trace ++ [Event.report_progress m])
          self.progress_symbol = false) →
      report_progress self trace m = (.void, trace ++ [Event.report_progress m])) ∧
    ((self.report_macro = none ∨ ∃ display, self.report_macro = some display ∧
        display.createFunctionCall (trace ++ [Event.report_directory m])
          self.directory_symbol = false) →
      report_directory self trace m = some (.void, trace ++ [Event.report_directory m])) ∧
    ((self.report_macro = none ∨ ∃ display, self.report_macro = some display ∧
        display.createFunctionCall (trace ++ [Event.report_exception m])
          self.exception_symbol = false) →
      report_exception self trace m = (.void, trace ++ [Event.report_exception m])) := by
  have hcallable : ∀ (tr : List Event) (symbol : CxxString),
      (self.report_macro = none ∨ ∃ display, self.report_macro = some display ∧
        display.createFunctionCall tr symbol = false) → callable self tr symbol = false := by
    intro tr symbol h
    unfold callable
    rcases h with h | ⟨display, h, hcreate⟩
    · rw [h]
    · rw [h]
      exact hcreate
  refine ⟨fun h => ?_, fun h => ?_, fun h => ?_⟩
  · rw [report_progress_eq, hcallable _ _ h]
    rfl
  · rw [report_directory_eq, hcallable _ _ h]
    rfl
  · rw [report_exception_eq, hcallable _ _ h]
    rfl

/-- A concrete instance of `report_without_callback`: no macro for the progress report,
a display layer without functions for the other two. -/
theorem report_without_callback_witness :
    report_progress (sample_component none) [] (lit "50.0")
      = (.void, [] ++ [Event.report_progress (lit "50.0")]) ∧
    report_directory (sample_component (some empty_display)) [] (lit "/mnt")
      = some (.void, [] ++ [Event.report_directory (lit "/mnt")]) ∧
    report_exception (sample_component (some empty_display)) [] (lit "Error")
      = (.void, [] ++ [Event.report_exception (lit "Error")]) :=
  ⟨(report_without_callback (sample_component none) [] (lit "50.0")).1 (Or.inl rfl),
    (report_without_callback (sample_component (some empty_display)) [] (lit "/mnt")).2.1
      (Or.inr ⟨empty_display, rfl, rfl⟩),
    (report_without_callback (sample_component (some empty_display)) [] (lit "Error")).2.2
      (Or.inr ⟨empty_display, rfl, rfl⟩)⟩

/-- C6: when a report macro is at hand (`report_macro` and the function call are non-NULL),
`report_exception` runs the exception callback exactly once, with a string parameter equal
to its message. -/
theorem report_exception_verbatim (self : Y2PartedComponent) (trace : List Event)
    (m : CxxString) (display : Y2Namespace)
    (hdisplay : self.report_macro = some display)
    (hcall : display.createFunctionCall (trace ++ [Event.report_exception m])
      self.exception_symbol = true) :
    ∃ val, report_exception self trace m = (val,
      trace ++ [Event.report_exception m,
        Event.evaluateCall self.exception_symbol (.string m)]) := by
  have hc : callable self (trace ++ [Event.report_exception m]) self.exception_symbol
      = true := by
    simp [callable, hdisplay, hcall]
  rw [report_exception_eq, if_pos hc]
  exact ⟨_, Prod.ext rfl (List.append_assoc _ _ _)⟩

/-- A concrete instance of `report_exception_verbatim`, at a message with a control byte, a
NUL, a format directive and a byte above 127. -/
theorem report_exception_verbatim_witness :
    ∃ val, report_exception (sample_component (some quiet_display)) []
        [69, 114, 114, 10, 0, 37, 115, 200] = (val,
      [] ++ [Event.report_exception [69, 114, 114, 10, 0, 37, 115, 200],
        Event.evaluateCall (sample_component (some quiet_display)).exception_symbol
          (.string [69, 114, 114, 10, 0, 37, 115, 200])]) :=
  report_exception_verbatim (sample_component (some quiet_display)) []
    [69, 114, 114, 10, 0, 37, 115, 200] quiet_display rfl rfl

/-- The law of the returned value holds for a report function in closed form. -/
theorem result_law_of_eq (self : Y2PartedComponent) (before : List Event)
    (symbol : CxxString) (parameter : YCPValue) :
    result_law self before symbol parameter
      (if callable self before symbol then
        (if (answer self before symbol parameter).isVoid then YCPValue.void
          else RETURN_ERROR,
          before ++ [Event.evaluateCall symbol parameter])
      else (YCPValue.void, before)).1
      (if callable self before symbol then
        (if (answer self before symbol parameter).isVoid then YCPValue.void
          else RETURN_ERROR,
          before ++ [Event.evaluateCall symbol parameter])
      else (YCPValue.void, before)).2 := by
  have hne : YCPValue.void ≠ RETURN_ERROR := by decide
  unfold result_law callable answer
  cases hrm : self.report_macro with
  | none => simp [hne]
  | some display =>
    simp only []
    by_cases hcreate : display.createFunctionCall before symbol = true
    · by_cases hvoid : (display.evaluateCall before symbol parameter).isVoid = true
      · simp [hcreate, hvoid, hne]
      · simp [hcreate, hvoid, hne]
    · simp [hcreate, hne]

/-- C7: the result of each report function is void or the symbol `error`; it is `error`
exactly when a callback was run and the evaluation of the display layer was not void, and
it is void when the callback returned void. The callback in question is the one of the
function, with the parameter the function builds: the number `atol` gives the message for
`report_progress`, the text `build_message_final` returns for `report_directory`, the
message itself for `report_exception`. -/
theorem report_result (self : Y2PartedComponent) (trace : List Event) (m : CxxString) :
    result_law self (trace ++ [Event.report_progress m]) self.progress_symbol
      (.integer (atol (c_str m)))
      (report_progress self trace m).1 (report_progress self trace m).2 ∧
    (∃ r, report_directory self trace m = some r ∧
      build_message_final m
        = some (((m.take (scanned m)).filter keep).take 8 ++ suffix) ∧
      result_law self (trace ++ [Event.report_directory m]) self.directory_symbol
        (.string (((m.take (scanned m)).filter keep).take 8 ++ suffix)) r.1 r.2) ∧
    result_law self (trace ++ [Event.report_exception m]) self.exception_symbol
      (.string m)
      (report_exception self trace m).1 (report_exception self trace m).2 := by
  refine ⟨?_, ?_, ?_⟩
  · rw [report_progress_eq]
    exact result_law_of_eq self _ _ _
  · rw [report_directory_eq]
    exact ⟨_, rfl, build_message_final_eq m, result_law_of_eq self _ _ _⟩
  · rw [report_exception_eq]
    exact result_law_of_eq self _ _ _

/-! ## The events of the report functions -/

/-- Whether a callback can be called does not depend on the values callbacks return. -/
theorem callable_with_answers (self : Y2PartedComponent)
    (values : List Event → CxxString → YCPValue → YCPValue) (trace : List Event)
    (symbol : CxxString) :
    callable (with_answers self values) trace symbol = callable self trace symbol := by
  unfold callable with_answers
  cases self.report_macro <;> rfl

/-- The events a report function adds do not depend on the values callbacks return. -/
theorem report_events_with_answers (self : Y2PartedComponent)
    (values : List Event → CxxString → YCPValue → YCPValue) (trace : List Event)
    (entry : Event) (symbol : CxxString) (parameter : YCPValue) :
    report_events (with_answers self values) trace entry symbol parameter
      = report_events self trace entry symbol parameter := by
  unfold report_events
  rw [callable_with_answers]

/-- Among the events a report function adds, its entry is the only entry. -/
theorem report_events_filter (self : Y2PartedComponent) (trace : List Event)
    (entry : Event) (symbol : CxxString) (parameter : YCPValue)
    (h : entry.isReport = true) :
    (report_events self trace entry symbol parameter).filter Event.isReport = [entry] := by
  have hcall : Event.isReport (Event.evaluateCall symbol parameter) = false := rfl
  unfold report_events
  split <;> simp [List.filter_cons, h, hcall]

/-- The events at the return of `report_progress`. -/
theorem report_progress_trace (self : Y2PartedComponent) (trace : List Event)
    (m : CxxString) :
    (report_progress self trace m).2 = trace ++ report_events self trace
      (Event.report_progress m) self.progress_symbol (.integer (atol (c_str m))) := by
  rw [report_progress_eq]
  unfold report_events
  split <;> simp

/-- The events at the return of `report_directory`, which always returns. -/
theorem report_directory_trace (self : Y2PartedComponent) (trace : List Event)
    (m : CxxString) :
    (report_directory self trace m).map (fun r => r.2) = some (trace ++ report_events self
      trace (Event.report_directory m) self.directory_symbol
      (.string (((m.take (scanned m)).filter keep).take 8 ++ suffix))) := by
  rw [report_directory_eq]
  unfold report_events
  split <;> simp

/-- The events at the return of `report_exception`. -/
theorem report_exception_trace (self : Y2PartedComponent) (trace : List Event)
    (m : CxxString) :
    (report_exception self trace m).2 = trace ++ report_events self trace
      (Event.report_exception m) self.exception_symbol (.string m) := by
  rw [report_exception_eq]
  unfold report_events
  split <;> simp

/-! ## The `while` loop of `doActualWork` -/

/-- One pass through the body of the loop returns, and adds the events `step_events`. -/
theorem show_progress_step_eq (self : Y2PartedComponent) (trace : List Event)
    (m : Messages) :
    show_progress_step self trace m = some (trace ++ step_events self trace m) := by
  unfold show_progress_step step_events
  simp only [report_progress_trace, report_directory_trace, report_exception_trace]
  by_cases hp : m.message_progress = [] <;> by_cases hd : m.message_directory = [] <;>
    by_cases he : m.message_exception = [] <;>
    simp [hp, hd, he, List.append_assoc]

/-- The loop returns for every list of rounds, and adds the events `loop_events`. -/
theorem show_progress_eq (self : Y2PartedComponent) :
    ∀ (messages : List Messages) (trace : List Event),
      show_progress self messages trace = some (trace ++ loop_events self messages trace) := by
  intro messages
  induction messages with
  | nil =>
    intro trace
    simp [show_progress, loop_events]
  | cons m rest ih =>
    intro trace
    simp only [show_progress, loop_events, show_progress_step_eq, ih, List.append_assoc]

/-- The events of one pass do not depend on the values callbacks return. -/
theorem step_events_with_answers (self : Y2PartedComponent)
    (values : List Event → CxxString → YCPValue → YCPValue) (trace : List Event)
    (m : Messages) :
    step_events (with_answers self values) trace m = step_events self trace m := by
  unfold step_events
  simp only [report_events_with_answers]
  rfl

/-- The events of the loop do not depend on the values callbacks return. -/
theorem loop_events_with_answers (self : Y2PartedComponent)
    (values : List Event → CxxString → YCPValue → YCPValue) :
    ∀ (messages : List Messages) (trace : List Event),
      loop_events (with_answers self values) messages trace
        = loop_events self messages trace := by
  intro messages
  induction messages with
  | nil =>
    intro trace
    rfl
  | cons m rest ih =>
    intro trace
    simp only [loop_events, step_events_with_answers, ih]

/-- The report calls of one pass: one for each string that is not empty. -/
theorem step_events_filter (self : Y2PartedComponent) (trace : List Event) (m : Messages) :
    (step_events self trace m).filter Event.isReport = reports_of m := by
  unfold step_events reports_of
  simp only [List.filter_append]
  by_cases hp : m.message_progress = [] <;> by_cases hd : m.message_directory = [] <;>
    by_cases he : m.message_exception = [] <;>
    simp [hp, hd, he, report_events_filter, Event.isReport]

/-- The report calls of the loop: those of its rounds, in their order. -/
theorem loop_events_filter (self : Y2PartedComponent) :
    ∀ (messages : List Messages) (trace : List Event),
      (loop_events self messages trace).filter Event.isReport
        = (messages.map reports_of).flatten := by
  intro messages
  induction messages with
  | nil =>
    intro trace
    rfl
  | cons m rest ih =>
    intro trace
    simp only [loop_events, List.filter_append, step_events_filter, ih, List.map_cons,
      List.flatten_cons]

/-! ## The parameters of `doActualWork` -/

/-- A position `find` returns leaves room for the pattern. -/
theorem find_le (pattern : CxxString) :
    ∀ (s : CxxString) (p : Nat), find pattern s = some p → p + pattern.length ≤ s.length := by
  intro s
  induction s with
  | nil =>
    intro p h
    unfold find at h
    split at h
    · rename_i hpat
      simp only [Option.some.injEq] at h
      subst h
      simp [hpat]
    · exact absurd h (by simp)
  | cons c rest ih =>
    intro p h
    unfold find at h
    split at h
    · rename_i hpre
      simp only [Option.some.injEq] at h
      subst h
      have hle := (List.isPrefixOf_iff_prefix.mp hpre).length_le
      omega
    · cases hrest : find pattern rest with
      | none => simp [hrest] at h
      | some q =>
        simp only [hrest, Option.map_some', Option.some.injEq] at h
        have hq := ih q hrest
        simp only [List.length_cons]
        omega

/-- The symbol behind the separator exists whenever the separator is found. -/
theorem substr_from_find (s : CxxString) (colonpos : Nat)
    (h : find (lit "::") s = some colonpos) :
    substr_from s (colonpos + 2) = some (s.drop (colonpos + 2)) ∧
    substr s 0 colonpos = some (s.take colonpos) := by
  have hle := find_le (lit "::") s colonpos h
  have hlen : (lit "::").length = 2 := by decide
  unfold substr_from substr
  rw [if_pos (by omega), if_pos (by omega)]
  simp

/-- The parameters are read for every list of options: `get_parameters` returns. -/
theorem get_parameters_total (self : Y2PartedComponent) (broker : Y2ComponentBroker)
    (options : YCPList) : ∃ self', get_parameters self broker options = some self' := by
  have h1 : ∃ s1, get_progress_macro self broker options = some s1 := by
    unfold get_progress_macro
    simp only []
    cases hfind : find (lit "::") (string_value (options.value 0)) with
    | none => exact ⟨_, rfl⟩
    | some colonpos =>
      have hsub := substr_from_find _ _ hfind
      simp only [hsub.1, hsub.2]
      cases broker.getNamespaceComponent ((string_value (options.value 0)).take colonpos)
        <;> exact ⟨_, rfl⟩
  obtain ⟨s1, hs1⟩ := h1
  have h2 : ∃ s2, get_directory_symbol s1 options = some s2 := by
    unfold get_directory_symbol
    simp only []
    cases hfind : find (lit "::") (string_value (options.value 1)) with
    | none => exact ⟨_, rfl⟩
    | some colonpos =>
      have hsub := substr_from_find _ _ hfind
      simp only [hsub.1]
      exact ⟨_, rfl⟩
  obtain ⟨s2, hs2⟩ := h2
  have h3 : ∃ s3, get_exception_symbol s2 options = some s3 := by
    unfold get_exception_symbol
    simp only []
    cases hfind : find (lit "::") (string_value (options.value 2)) with
    | none => exact ⟨_, rfl⟩
    | some colonpos =>
      have hsub := substr_from_find _ _ hfind
      simp only [hsub.1]
      exact ⟨_, rfl⟩
  obtain ⟨s3, hs3⟩ := h3
  unfold get_parameters
  simp only [hs1, hs2, hs3]
  exact ⟨_, rfl⟩

/-! ## `doActualWork` in closed form -/

/-- With the members `self` read from the options: what `doActualWork` returns, and the
events at its return. -/
theorem doActualWork_eq (self0 : Y2PartedComponent) (broker : Y2ComponentBroker)
    (win_p : WIN_Partition) (trace : List Event) (options : YCPList)
    (self : Y2PartedComponent) (hself : get_parameters self0 broker options = some self) :
    doActualWork self0 broker win_p trace options = some
      (if (report_progress self trace (lit "0.0")).1.isVoid then
        { returncode := if win_p.status ≠ 0 then RETURN_ERROR else RETURN_OK
          self := self
          trace := (report_progress self trace (lit "0.0")).2 ++
            [Event.resize self.partition self.partition_start self.partition_length] ++
            loop_events self win_p.progress_status
              ((report_progress self trace (lit "0.0")).2 ++
                [Event.resize self.partition self.partition_start self.partition_length]) ++
            [Event.status] }
      else
        { returncode := RETURN_ERROR
          self := self
          trace := (report_progress self trace (lit "0.0")).2 }) := by
  unfold doActualWork
  simp only [hself, show_progress_eq]
  by_cases hvoid : (report_progress self trace (lit "0.0")).1.isVoid = true
  · simp [hvoid]
  · simp [hvoid]

/-! ## Errors of the display layer and the result of `doActualWork` -/

set_option maxRecDepth 100000 in
/-- C3, as stated, fails: with a display layer whose callbacks return a non-void value and a
run of parted that ends with status 0, `doActualWork` returns `error` after the first
progress report; the resize is not started and no message of the run is reported. With a
display layer that returns void the same run gives `ok`. -/
theorem doActualWork_initial_error :
    (doActualWork (sample_component none) (sample_broker failing_display) (sample_run 0) []
        sample_options).map (fun out => (out.returncode, out.trace))
      = some (RETURN_ERROR, [Event.report_progress (lit "0.0"),
          Event.evaluateCall (lit "OnProgress") (.integer 0)]) ∧
    (sample_run 0).status = 0 ∧
    (doActualWork (sample_component none) (sample_broker quiet_display) (sample_run 0) []
        sample_options).map (fun out => out.returncode) = some RETURN_OK := by
  decide

/-- C3, amended: when the first progress report (the one for `0.0`) returns void, errors of
the display layer do not abort the operation. `doActualWork` returns, with the result that
the status of parted alone determines; the resize is started; between the resize and the
status a report call is made for every message of the run that is not empty; and these
events are the same whatever values the callbacks return. -/
theorem doActualWork_display_errors (self0 : Y2PartedComponent) (broker : Y2ComponentBroker)
    (win_p : WIN_Partition) (trace : List Event) (options : YCPList)
    (self : Y2PartedComponent) (hself : get_parameters self0 broker options = some self)
    (hinit : (report_progress self trace (lit "0.0")).1 = .void) :
    ∃ events,
      doActualWork self0 broker win_p trace options = some
        { returncode := if win_p.status ≠ 0 then RETURN_ERROR else RETURN_OK
          self := self
          trace := (report_progress self trace (lit "0.0")).2 ++
            [Event.resize self.partition self.partition_start self.partition_length] ++
            events ++ [Event.status] } ∧
      events.filter Event.isReport = (win_p.progress_status.map reports_of).flatten ∧
      ∀ values : List Event → CxxString → YCPValue → YCPValue,
        show_progress (with_answers self values) win_p.progress_status
            ((report_progress self trace (lit "0.0")).2 ++
              [Event.resize self.partition self.partition_start self.partition_length])
          = some ((report_progress self trace (lit "0.0")).2 ++
              [Event.resize self.partition self.partition_start self.partition_length] ++
              events) := by
  refine ⟨loop_events self win_p.progress_status
    ((report_progress self trace (lit "0.0")).2 ++
      [Event.resize self.partition self.partition_start self.partition_length]), ?_, ?_, ?_⟩
  · rw [doActualWork_eq self0 broker win_p trace options self hself, hinit]
    rfl
  · exact loop_events_filter self _ _
  · intro values
    rw [show_progress_eq, loop_events_with_answers]

set_option maxRecDepth 100000 in
/-- A concrete instance of `doActualWork_display_errors`: the display layer accepts the
first progress report and fails on every later event, parted ends with status 0. -/
theorem doActualWork_display_errors_witness :
    ∃ events,
      doActualWork (sample_component none) (sample_broker late_failing_display)
          (sample_run 0) [] sample_options = some
        { returncode := if (sample_run 0).status ≠ 0 then RETURN_ERROR else RETURN_OK
          self := sample_component (some late_failing_display)
          trace := (report_progress (sample_component (some late_failing_display)) []
              (lit "0.0")).2 ++
            [Event.resize (sample_component (some late_failing_display)).partition
              (sample_component (some late_failing_display)).partition_start
              (sample_component (some late_failing_display)).partition_length] ++
            events ++ [Event.status] } ∧
      events.filter Event.isReport = ((sample_run 0).progress_status.map reports_of).flatten ∧
      ∀ values : List Event → CxxString → YCPValue → YCPValue,
        show_progress (with_answers (sample_component (some late_failing_display)) values)
            (sample_run 0).progress_status
            ((report_progress (sample_component (some late_failing_display)) []
                (lit "0.0")).2 ++
              [Event.resize (sample_component (some late_failing_display)).partition
                (sample_component (some late_failing_display)).partition_start
                (sample_component (some late_failing_display)).partition_length])
          = some ((report_progress (sample_component (some late_failing_display)) []
                (lit "0.0")).2 ++
              [Event.resize (sample_component (some late_failing_display)).partition
                (sample_component (some late_failing_display)).partition_start
                (sample_component (some late_failing_display)).partition_length] ++
              events) :=
  doActualWork_display_errors (sample_component none) (sample_broker late_failing_display)
    (sample_run 0) [] sample_options (sample_component (some late_failing_display))
    rfl (by decide)

/-- C4: when the first progress report returns void, `doActualWork` returns `ok` exactly
when the final status of parted is 0 and `error` for every other status, whatever the
messages of the run and the answers of the display layer. -/
theorem doActualWork_returncode (self0 : Y2PartedComponent) (broker : Y2ComponentBroker)
    (win_p : WIN_Partition) (trace : List Event) (options : YCPList)
    (self : Y2PartedComponent) (hself : get_parameters self0 broker options = some self)
    (hinit : (report_progress self trace (lit "0.0")).1 = .void) :
    ∃ out, doActualWork self0 broker win_p trace options = some out ∧
      (out.returncode = RETURN_OK ↔ win_p.status = 0) ∧
      (win_p.status ≠ 0 → out.returncode = RETURN_ERROR) := by
  have hne : RETURN_ERROR ≠ RETURN_OK := by decide
  rw [doActualWork_eq self0 broker win_p trace options self hself, hinit]
  refine ⟨_, rfl, ?_, ?_⟩
  · by_cases hs : win_p.status = 0
    · simp [hs, YCPValue.isVoid]
    · simp [hs, hne, YCPValue.isVoid]
  · intro hs
    simp [hs, YCPValue.isVoid]

set_option maxRecDepth 100000 in
/-- A concrete instance of `doActualWork_returncode`: the display layer fails on every event
after the first progress report, parted ends with status 3. -/
theorem doActualWork_returncode_witness :
    ∃ out, doActualWork (sample_component none) (sample_broker late_failing_display)
        (sample_run 3) [] sample_options = some out ∧
      (out.returncode = RETURN_OK ↔ (sample_run 3).status = 0) ∧
      ((sample_run 3).status ≠ 0 → out.returncode = RETURN_ERROR) :=
  doActualWork_returncode (sample_component none) (sample_broker late_failing_display)
    (sample_run 3) [] sample_options (sample_component (some late_failing_display))
    rfl (by decide)

/-! ## The first progress report and the sequence of report calls -/

/-- C13: when the first call of `report_progress`, the one for `0.0`, returns a value that
is not void, `doActualWork` returns `error` at once: the events of the call are the entry
of that report and the one progress callback, so the resize is not started, the status of
parted is not asked for and no other event is delivered. -/
theorem doActualWork_initial_abort (self0 : Y2PartedComponent) (broker : Y2ComponentBroker)
    (win_p : WIN_Partition) (trace : List Event) (options : YCPList)
    (self : Y2PartedComponent) (hself : get_parameters self0 broker options = some self)
    (hinit : (report_progress self trace (lit "0.0")).1.isVoid = false) :
    doActualWork self0 broker win_p trace options = some
      { returncode := RETURN_ERROR
        self := self
        trace := trace ++ [Event.report_progress (lit "0.0"),
          Event.evaluateCall self.progress_symbol (.integer 0)] } := by
  have hatol : atol (c_str (lit "0.0")) = 0 := by decide
  have htrace : (report_progress self trace (lit "0.0")).2 = trace ++
      [Event.report_progress (lit "0.0"),
        Event.evaluateCall self.progress_symbol (.integer 0)] := by
    rw [report_progress_eq, hatol] at hinit ⊢
    split
    · simp
    · rename_i hc
      rw [if_neg hc] at hinit
      simp [YCPValue.isVoid] at hinit
  rw [doActualWork_eq self0 broker win_p trace options self hself, hinit, htrace]
  rfl

set_option maxRecDepth 100000 in
/-- A concrete instance of `doActualWork_initial_abort`: every callback of the display
layer returns a non-void value, parted would end with status 0. -/
theorem doActualWork_initial_abort_witness :
    doActualWork (sample_component none) (sample_broker failing_display) (sample_run 0) []
        sample_options = some
      { returncode := RETURN_ERROR
        self := sample_component (some failing_display)
        trace := [] ++ [Event.report_progress (lit "0.0"),
          Event.evaluateCall (sample_component (some failing_display)).progress_symbol
            (.integer 0)] } :=
  doActualWork_initial_abort (sample_component none) (sample_broker failing_display)
    (sample_run 0) [] sample_options (sample_component (some failing_display)) rfl
    (by decide)

/-- C14: when the first progress report returns void, the report calls `doActualWork` makes
are, in this order: the progress report for `0.0`; then for each round of messages a
progress report if its progress message is not empty, a directory report if its directory
message is not empty, an exception report if its exception message is not empty. No other
report call is made and none is made twice. -/
theorem doActualWork_report_calls (self0 : Y2PartedComponent) (broker : Y2ComponentBroker)
    (win_p : WIN_Partition) (trace : List Event) (options : YCPList)
    (self : Y2PartedComponent) (hself : get_parameters self0 broker options = some self)
    (hinit : (report_progress self trace (lit "0.0")).1 = .void) :
    ∃ out added, doActualWork self0 broker win_p trace options = some out ∧
      out.trace = trace ++ added ∧
      added.filter Event.isReport =
        Event.report_progress (lit "0.0") ::
          (win_p.progress_status.map reports_of).flatten := by
  have hresize : ∀ a b c : CxxString, Event.isReport (Event.resize a b c) = false :=
    fun _ _ _ => rfl
  have hstatus : Event.isReport Event.status = false := rfl
  have hvoid : YCPValue.void.isVoid = true := rfl
  rw [doActualWork_eq self0 broker win_p trace options self hself, hinit,
    report_progress_trace, if_pos hvoid]
  have hfirst := report_events_filter self trace (Event.report_progress (lit "0.0"))
    self.progress_symbol (.integer (atol (c_str (lit "0.0")))) rfl
  generalize report_events self trace (Event.report_progress (lit "0.0"))
    self.progress_symbol (.integer (atol (c_str (lit "0.0")))) = first at hfirst ⊢
  have hloop := loop_events_filter self win_p.progress_status
    (trace ++ first ++
      [Event.resize self.partition self.partition_start self.partition_length])
  generalize loop_events self win_p.progress_status (trace ++ first ++
    [Event.resize self.partition self.partition_start self.partition_length])
    = rounds at hloop ⊢
  refine ⟨_, first ++
    [Event.resize self.partition self.partition_start self.partition_length] ++
    rounds ++ [Event.status], rfl, ?_, ?_⟩
  · simp only [List.append_assoc]
  · simp [List.filter_append, hfirst, hloop, List.filter_cons, hresize, hstatus]

set_option maxRecDepth 100000 in
/-- A concrete instance of `doActualWork_report_calls`: the display layer fails on every
event after the first progress report. -/
theorem doActualWork_report_calls_witness :
    ∃ out added, doActualWork (sample_component none) (sample_broker late_failing_display)
        (sample_run 0) [] sample_options = some out ∧
      out.trace = [] ++ added ∧
      added.filter Event.isReport =
        Event.report_progress (lit "0.0") ::
          ((sample_run 0).progress_status.map reports_of).flatten :=
  doActualWork_report_calls (sample_component none) (sample_broker late_failing_display)
    (sample_run 0) [] sample_options (sample_component (some late_failing_display)) rfl
    (by decide)

/-! ## The macros among the options -/

/-- Where `find` returns a position, the pattern stands there and at no earlier position. -/
theorem find_some (pattern : CxxString) :
    ∀ (s : CxxString) (p : Nat), find pattern s = some p →
      s = s.take p ++ pattern ++ s.drop (p + pattern.length) ∧
      ∀ q, q < p → ¬ pattern <+: s.drop q := by
  intro s
  induction s with
  | nil =>
    intro p h
    unfold find at h
    split at h
    · rename_i hpat
      simp only [Option.some.injEq] at h
      subst h
      exact ⟨by simp [hpat], fun q hq => absurd hq (Nat.not_lt_zero q)⟩
    · exact absurd h (by simp)
  | cons c rest ih =>
    intro p h
    unfold find at h
    split at h
    · rename_i hpre
      simp only [Option.some.injEq] at h
      subst h
      have hp := List.prefix_iff_eq_append.mp (List.isPrefixOf_iff_prefix.mp hpre)
      refine ⟨?_, fun q hq => absurd hq (Nat.not_lt_zero q)⟩
      simpa using hp.symm
    · rename_i hpre
      cases hrest : find pattern rest with
      | none => simp [hrest] at h
      | some r =>
        simp only [hrest, Option.map_some', Option.some.injEq] at h
        subst h
        obtain ⟨heq, hfirst⟩ := ih r hrest
        refine ⟨?_, ?_⟩
        · have hadd : r + 1 + pattern.length = (r + pattern.length) + 1 := by omega
          rw [hadd, List.take_succ_cons, List.drop_succ_cons, List.cons_append,
            List.cons_append, ← heq]
        · intro q hq
          cases q with
          | zero =>
            intro hpre'
            exact hpre (List.isPrefixOf_iff_prefix.mpr hpre')
          | succ q =>
            rw [List.drop_succ_cons]
            exact hfirst q (by omega)

/-- Where `find` returns `npos`, the pattern stands nowhere in the string. -/
theorem find_none (pattern : CxxString) :
    ∀ s : CxxString, find pattern s = none →
      ¬ ∃ pre post : CxxString, s = pre ++ pattern ++ post := by
  intro s
  induction s with
  | nil =>
    intro h
    unfold find at h
    split at h
    · exact absurd h (by simp)
    · rename_i hpat
      rintro ⟨pre, post, heq⟩
      have hnil := List.append_eq_nil.mp heq.symm
      exact hpat (List.append_eq_nil.mp hnil.1).2
  | cons c rest ih =>
    intro h
    unfold find at h
    split at h
    · exact absurd h (by simp)
    · rename_i hpre
      cases hrest : find pattern rest with
      | some r => simp [hrest] at h
      | none =>
        rintro ⟨pre, post, heq⟩
        cases pre with
        | nil =>
          apply hpre
          rw [List.isPrefixOf_iff_prefix, heq]
          exact ⟨post, by simp⟩
        | cons d pre =>
          simp only [List.cons_append, List.cons.injEq] at heq
          exact ih hrest ⟨pre, post, heq.2⟩

/-- The members after the progress macro is read. -/
theorem get_progress_macro_eq (self : Y2PartedComponent) (broker : Y2ComponentBroker)
    (options : YCPList) :
    get_progress_macro self broker options = some
      (match find (lit "::") (string_value (options.value 0)) with
      | none => { self with report_macro := none }
      | some p =>
        { self with
          report_macro :=
            (broker.getNamespaceComponent ((string_value (options.value 0)).take p)).bind
              (fun comp => comp.nsImport ((string_value (options.value 0)).take p))
          module := (string_value (options.value 0)).take p
          progress_symbol := (string_value (options.value 0)).drop (p + 2) }) := by
  unfold get_progress_macro
  simp only []
  cases h0 : find (lit "::") (string_value (options.value 0)) with
  | none => rfl
  | some p0 =>
    simp only [(substr_from_find _ _ h0).1, (substr_from_find _ _ h0).2]
    cases broker.getNamespaceComponent ((string_value (options.value 0)).take p0) <;> rfl

/-- The members after the directory macro is read. -/
theorem get_directory_symbol_eq (self : Y2PartedComponent) (options : YCPList) :
    get_directory_symbol self options = some
      (match find (lit "::") (string_value (options.value 1)) with
      | none => self
      | some p =>
        { self with directory_symbol := (string_value (options.value 1)).drop (p + 2) }) := by
  unfold get_directory_symbol
  simp only []
  cases h1 : find (lit "::") (string_value (options.value 1)) with
  | none => rfl
  | some p1 => simp only [(substr_from_find _ _ h1).1]

/-- The members after the exception macro is read. -/
theorem get_exception_symbol_eq (self : Y2PartedComponent) (options : YCPList) :
    get_exception_symbol self options = some
      (match find (lit "::") (string_value (options.value 2)) with
      | none => self
      | some p =>
        { self with exception_symbol := (string_value (options.value 2)).drop (p + 2) }) := by
  unfold get_exception_symbol
  simp only []
  cases h2 : find (lit "::") (string_value (options.value 2)) with
  | none => rfl
  | some p2 => simp only [(substr_from_find _ _ h2).1]

/-- The member variables after the parameters are read, for every list of options. -/
theorem get_parameters_eq (self0 : Y2PartedComponent) (broker : Y2ComponentBroker)
    (options : YCPList) :
    get_parameters self0 broker options = some
      { report_macro :=
          match find (lit "::") (string_value (options.value 0)) with
          | none => none
          | some p =>
            (broker.getNamespaceComponent ((string_value (options.value 0)).take p)).bind
              (fun comp => comp.nsImport ((string_value (options.value 0)).take p))
        module :=
          match find (lit "::") (string_value (options.value 0)) with
          | none => self0.module
          | some p => (string_value (options.value 0)).take p
        progress_symbol :=
          match find (lit "::") (string_value (options.value 0)) with
          | none => self0.progress_symbol
          | some p => (string_value (options.value 0)).drop (p + 2)
        directory_symbol :=
          match find (lit "::") (string_value (options.value 1)) with
          | none => self0.directory_symbol
          | some p => (string_value (options.value 1)).drop (p + 2)
        exception_symbol :=
          match find (lit "::") (string_value (options.value 2)) with
          | none => self0.exception_symbol
          | some p => (string_value (options.value 2)).drop (p + 2)
        partition := string_value (options.value 3)
        partition_start := string_value (options.value 4)
        partition_length := string_value (options.value 5) } := by
  unfold get_parameters
  simp only [get_progress_macro_eq, get_directory_symbol_eq, get_exception_symbol_eq]
  cases find (lit "::") (string_value (options.value 0)) <;>
    cases find (lit "::") (string_value (options.value 1)) <;>
    cases find (lit "::") (string_value (options.value 2)) <;> rfl

/-- `doActualWork` returns for every list of options, with the members read from them. -/
theorem doActualWork_returns (self0 : Y2PartedComponent) (broker : Y2ComponentBroker)
    (win_p : WIN_Partition) (trace : List Event) (options : YCPList)
    (self : Y2PartedComponent) (hself : get_parameters self0 broker options = some self) :
    ∃ out, doActualWork self0 broker win_p trace options = some out ∧ out.self = self := by
  rw [doActualWork_eq self0 broker win_p trace options self hself]
  split <;> exact ⟨_, rfl, rfl⟩

/-- C17: a progress macro that contains `::` is split at the first `::`: the module and the
progress symbol put together with `::` between them give the macro again, and `::` stands
at no position in front of the end of the module (so the symbol is all the text behind the
first `::`). A macro without `::` (a void option counts as the empty string) leaves
`report_macro` NULL. -/
theorem doActualWork_split (self0 : Y2PartedComponent) (broker : Y2ComponentBroker)
    (win_p : WIN_Partition) (trace : List Event) (options : YCPList) :
    ∃ out, doActualWork self0 broker win_p trace options = some out ∧
      ((∃ pre post : CxxString, string_value (options.value 0) = pre ++ lit "::" ++ post) →
        out.self.module ++ lit "::" ++ out.self.progress_symbol
            = string_value (options.value 0) ∧
          ∀ q, q < out.self.module.length →
            ¬ lit "::" <+: (string_value (options.value 0)).drop q) ∧
      ((¬ ∃ pre post : CxxString, string_value (options.value 0) = pre ++ lit "::" ++ post) →
        out.self.report_macro = none) := by
  obtain ⟨out, hout, hself⟩ := doActualWork_returns self0 broker win_p trace options _
    (get_parameters_eq self0 broker options)
  refine ⟨out, hout, ?_, ?_⟩
  · intro hcontains
    rw [hself]
    cases h0 : find (lit "::") (string_value (options.value 0)) with
    | none => exact absurd hcontains (find_none _ _ h0)
    | some p =>
      obtain ⟨heq, hfirst⟩ := find_some _ _ p h0
      have hlen : (lit "::").length = 2 := by decide
      rw [hlen] at heq
      refine ⟨heq.symm, ?_⟩
      intro q hq
      simp only [List.length_take] at hq
      exact hfirst q (by omega)
  · intro hnot
    rw [hself]
    cases h0 : find (lit "::") (string_value (options.value 0)) with
    | none => rfl
    | some p =>
      exact absurd ⟨_, _, (find_some _ _ p h0).1⟩ hnot

set_option maxRecDepth 100000 in
/-- A concrete instance of `doActualWork_split`: the macro `Progress::OnProgress` is split
into `Progress` and `OnProgress`; without a progress macro `report_macro` is NULL. -/
theorem doActualWork_split_witness :
    (∃ out, doActualWork (sample_component none) (sample_broker quiet_display)
        (sample_run 0) [] sample_options = some out ∧
      out.self.module ++ lit "::" ++ out.self.progress_symbol
          = string_value (sample_options.value 0) ∧
        ∀ q, q < out.self.module.length →
          ¬ lit "::" <+: (string_value (sample_options.value 0)).drop q) ∧
    (∃ out, doActualWork (sample_component (some quiet_display))
        (sample_broker quiet_display) (sample_run 0) [] options_without_progress = some out ∧
      out.self.report_macro = none) :=
  ⟨(doActualWork_split (sample_component none) (sample_broker quiet_display)
      (sample_run 0) [] sample_options).elim
      (fun out h => ⟨out, h.1, h.2.1 ⟨lit "Progress", lit "OnProgress", by decide⟩⟩),
    (doActualWork_split (sample_component (some quiet_display))
      (sample_broker quiet_display) (sample_run 0) [] options_without_progress).elim
      (fun out h => ⟨out, h.1, h.2.2 (find_none (lit "::") [] (by decide))⟩)⟩

/-! ## Without a namespace no callback is run -/

/-- Without a report macro a report function adds its entry only. -/
theorem report_events_none (self : Y2PartedComponent) (trace : List Event) (entry : Event)
    (symbol : CxxString) (parameter : YCPValue) (hnone : self.report_macro = none) :
    report_events self trace entry symbol parameter = [entry] := by
  unfold report_events callable
  rw [hnone]
  rfl

/-- Without a report macro one pass through the loop runs no callback. -/
theorem step_events_none (self : Y2PartedComponent) (trace : List Event) (m : Messages)
    (hnone : self.report_macro = none) :
    ∀ e ∈ step_events self trace m, e.isCallback = false := by
  unfold step_events
  simp only [report_events_none _ _ _ _ _ hnone]
  intro e he
  simp only [List.mem_append] at he
  rcases he with (he | he) | he <;>
    · split at he
      · rw [List.mem_singleton.mp he]
        rfl
      · exact absurd he (List.not_mem_nil e)

/-- Without a report macro the loop runs no callback. -/
theorem loop_events_none (self : Y2PartedComponent) (hnone : self.report_macro = none) :
    ∀ (messages : List Messages) (trace : List Event),
      ∀ e ∈ loop_events self messages trace, e.isCallback = false := by
  intro messages
  induction messages with
  | nil =>
    intro trace e he
    exact absurd he (List.not_mem_nil e)
  | cons m rest ih =>
    intro trace e he
    simp only [loop_events, List.mem_append] at he
    rcases he with he | he
    · exact step_events_none self trace m hnone e he
    · exact ih _ e he

/-- Without a report macro `doActualWork` runs no callback at all. -/
theorem doActualWork_none (self0 : Y2PartedComponent) (broker : Y2ComponentBroker)
    (win_p : WIN_Partition) (trace : List Event) (options : YCPList)
    (self : Y2PartedComponent) (hself : get_parameters self0 broker options = some self)
    (hnone : self.report_macro = none) :
    ∃ out added, doActualWork self0 broker win_p trace options = some out ∧
      out.self = self ∧ out.trace = trace ++ added ∧
      ∀ e ∈ added, e.isCallback = false := by
  have hcall : callable self (trace ++ [Event.report_progress (lit "0.0")])
      self.progress_symbol = false := by
    unfold callable
    rw [hnone]
  have hfirst : report_progress self trace (lit "0.0")
      = (YCPValue.void, trace ++ [Event.report_progress (lit "0.0")]) := by
    rw [report_progress_eq, hcall]
    rfl
  have hvoid : YCPValue.void.isVoid = true := rfl
  rw [doActualWork_eq self0 broker win_p trace options self hself, hfirst, if_pos hvoid]
  refine ⟨_, [Event.report_progress (lit "0.0")] ++
    [Event.resize self.partition self.partition_start self.partition_length] ++
    loop_events self win_p.progress_status (trace ++ [Event.report_progress (lit "0.0")] ++
      [Event.resize self.partition self.partition_start self.partition_length]) ++
    [Event.status], rfl, rfl, ?_, ?_⟩
  · simp only [List.append_assoc]
  · intro e he
    simp only [List.mem_append, List.mem_singleton] at he
    rcases he with ((he | he) | he) | he
    · rw [he]
      rfl
    · rw [he]
      rfl
    · exact loop_events_none self hnone _ _ e he
    · rw [he]
      rfl

/-- Two macros with the same symbol part set the same symbol. -/
theorem symbol_part_match (a b previous : CxxString) (h : symbol_part a = symbol_part b) :
    (match find (lit "::") a with
      | none => previous
      | some p => a.drop (p + 2))
    = (match find (lit "::") b with
      | none => previous
      | some p => b.drop (p + 2)) := by
  unfold symbol_part at h
  cases ha : find (lit "::") a <;> cases hb : find (lit "::") b <;>
    simp only [ha, hb, Option.map_none', Option.map_some', Option.some.injEq] at h
  · rfl
  · exact absurd h (by simp)
  · exact absurd h (by simp)
  · exact h

/-- C16: the callbacks of a call are routed through the namespace that the module of the
progress macro (option 0) resolves to. The module parts of the directory macro (option 1)
and of the exception macro (option 2) are ignored: the call has the same outcome for all
options that differ in them only. When the progress macro is void, has no `::`, or names a
module that is not resolved, `report_macro` is NULL and the call runs no callback, so no
directory and no exception callback, whatever options 1 and 2 are. -/
theorem doActualWork_routing (self0 : Y2PartedComponent) (broker : Y2ComponentBroker)
    (win_p : WIN_Partition) (trace : List Event) (options : YCPList) :
    ∃ out added, doActualWork self0 broker win_p trace options = some out ∧
      out.trace = trace ++ added ∧
      (∀ p, find (lit "::") (string_value (options.value 0)) = some p →
        out.self.report_macro =
          (broker.getNamespaceComponent ((string_value (options.value 0)).take p)).bind
            (fun comp => comp.nsImport ((string_value (options.value 0)).take p))) ∧
      ((options.value 0 = none ∨
        (¬ ∃ pre post : CxxString,
          string_value (options.value 0) = pre ++ lit "::" ++ post) ∨
        (∃ p, find (lit "::") (string_value (options.value 0)) = some p ∧
          (broker.getNamespaceComponent ((string_value (options.value 0)).take p) = none ∨
            ∃ comp,
              broker.getNamespaceComponent ((string_value (options.value 0)).take p)
                = some comp ∧
              comp.nsImport ((string_value (options.value 0)).take p) = none))) →
        out.self.report_macro = none ∧ ∀ e ∈ added, e.isCallback = false) ∧
      (∀ options' : YCPList, options'.value 0 = options.value 0 →
        symbol_part (string_value (options'.value 1))
          = symbol_part (string_value (options.value 1)) →
        symbol_part (string_value (options'.value 2))
          = symbol_part (string_value (options.value 2)) →
        options'.value 3 = options.value 3 → options'.value 4 = options.value 4 →
        options'.value 5 = options.value 5 →
        doActualWork self0 broker win_p trace options' = some out) := by
  obtain ⟨self, hparams⟩ := get_parameters_total self0 broker options
  have hself := get_parameters_eq self0 broker options
  rw [hparams, Option.some.injEq] at hself
  have hrm : self.report_macro =
      match find (lit "::") (string_value (options.value 0)) with
      | none => none
      | some p =>
        (broker.getNamespaceComponent ((string_value (options.value 0)).take p)).bind
          (fun comp => comp.nsImport ((string_value (options.value 0)).take p)) := by
    rw [hself]
  have hsame : ∀ options' : YCPList, options'.value 0 = options.value 0 →
      symbol_part (string_value (options'.value 1))
        = symbol_part (string_value (options.value 1)) →
      symbol_part (string_value (options'.value 2))
        = symbol_part (string_value (options.value 2)) →
      options'.value 3 = options.value 3 → options'.value 4 = options.value 4 →
      options'.value 5 = options.value 5 →
      get_parameters self0 broker options' = some self := by
    intro options' h0 h1 h2 h3 h4 h5
    rw [get_parameters_eq, hself, h0, h3, h4, h5,
      symbol_part_match _ _ self0.directory_symbol h1,
      symbol_part_match _ _ self0.exception_symbol h2]
  have hunresolved : (options.value 0 = none ∨
      (¬ ∃ pre post : CxxString,
        string_value (options.value 0) = pre ++ lit "::" ++ post) ∨
      (∃ p, find (lit "::") (string_value (options.value 0)) = some p ∧
        (broker.getNamespaceComponent ((string_value (options.value 0)).take p) = none ∨
          ∃ comp,
            broker.getNamespaceComponent ((string_value (options.value 0)).take p)
              = some comp ∧
            comp.nsImport ((string_value (options.value 0)).take p) = none))) →
      self.report_macro = none := by
    intro h
    rw [hrm]
    rcases h with h | h | ⟨p, hp, h⟩
    · rw [h]
      rfl
    · cases h0 : find (lit "::") (string_value (options.value 0)) with
      | none => rfl
      | some p => exact absurd ⟨_, _, (find_some _ _ p h0).1⟩ h
    · rw [hp]
      rcases h with h | ⟨comp, hcomp, h⟩
      · simp only [h, Option.bind]
      · simp only [hcomp, Option.bind, h]
  by_cases hnone : self.report_macro = none
  · obtain ⟨out, added, hout, hoself, htrace, hadded⟩ :=
      doActualWork_none self0 broker win_p trace options self hparams hnone
    refine ⟨out, added, hout, htrace, ?_, ?_, ?_⟩
    · intro p hp
      rw [hoself, hrm, hp]
    · intro _
      rw [hoself]
      exact ⟨hnone, hadded⟩
    · intro options' h0 h1 h2 h3 h4 h5
      rw [← hout]
      unfold doActualWork
      rw [hsame options' h0 h1 h2 h3 h4 h5, hparams]
  · obtain ⟨out, hout, hoself⟩ :=
      doActualWork_returns self0 broker win_p trace options self hparams
    have hext : ∃ added, out.trace = trace ++ added := by
      rw [doActualWork_eq self0 broker win_p trace options self hparams,
        report_progress_trace] at hout
      split at hout
      · simp only [Option.some.injEq] at hout
        rw [← hout]
        exact ⟨_, by simp only [List.append_assoc]; rfl⟩
      · simp only [Option.some.injEq] at hout
        rw [← hout]
        exact ⟨_, rfl⟩
    obtain ⟨added, htrace⟩ := hext
    refine ⟨out, added, hout, htrace, ?_, ?_, ?_⟩
    · intro p hp
      rw [hoself, hrm, hp]
    · intro h
      exact absurd (hunresolved h) hnone
    · intro options' h0 h1 h2 h3 h4 h5
      rw [← hout]
      unfold doActualWork
      rw [hsame options' h0 h1 h2 h3 h4 h5, hparams]

set_option maxRecDepth 100000 in
/-- A concrete instance of `doActualWork_routing`: without a progress macro no callback is
run although the directory and the exception macro are well-formed; and other module names
in front of the directory and the exception symbol change nothing. -/
theorem doActualWork_routing_witness :
    (∃ out added, doActualWork (sample_component (some quiet_display))
        (sample_broker quiet_display) (sample_run 0) [] options_without_progress = some out ∧
      out.trace = [] ++ added ∧
      out.self.report_macro = none ∧ ∀ e ∈ added, e.isCallback = false) ∧
    (∃ out, doActualWork (sample_component none) (sample_broker quiet_display)
        (sample_run 0) [] sample_options = some out ∧
      doActualWork (sample_component none) (sample_broker quiet_display)
        (sample_run 0) [] options_other_modules = some out) :=
  ⟨(doActualWork_routing (sample_component (some quiet_display))
      (sample_broker quiet_display) (sample_run 0) [] options_without_progress).elim
      (fun out h => h.elim (fun added h =>
        ⟨out, added, h.1, h.2.1, h.2.2.2.1 (Or.inl rfl)⟩)),
    (doActualWork_routing (sample_component none) (sample_broker quiet_display)
      (sample_run 0) [] sample_options).elim
      (fun out h => h.elim (fun _ h =>
        ⟨out, h.1, h.2.2.2.2 options_other_modules rfl (by decide) (by decide)
          rfl rfl rfl⟩))⟩

/-! ## The writes into `message_final` -/

/-- The loop with the record of its writes computes what the loop computes. -/
theorem filter_loop_writes_fst (buf : List Byte) (len : Int) :
    ∀ (fuel i k : Nat) (mf : List Byte) (writes : List Nat),
      (filter_loop_writes buf len fuel i k mf writes).map (fun r => (r.1, r.2.1))
        = filter_loop buf len fuel i k mf := by
  intro fuel
  induction fuel with
  | zero =>
    intro i k mf writes
    rfl
  | succ f ih =>
    intro i k mf writes
    rw [filter_loop_writes, filter_loop]
    split
    · cases buf[i]? with
      | none => rfl
      | some ch =>
        simp only []
        split
        · cases store mf k ch with
          | none => rfl
          | some stored => exact ih _ _ _ _
        · exact ih _ _ _ _
    · rfl

/-- The indices the loop writes to: `k`, `k + 1`, .. up to the final `k`, which is at most
eight. -/
theorem filter_loop_writes_log (buf : List Byte) (len : Int) :
    ∀ (fuel i k : Nat) (mf : List Byte) (writes : List Nat)
      (r : Nat × List Byte × List Nat),
      filter_loop_writes buf len fuel i k mf writes = some r →
        k ≤ r.1 ∧ (k ≤ 8 → r.1 ≤ 8) ∧ r.2.2 = writes ++ List.range' k (r.1 - k) := by
  intro fuel
  induction fuel with
  | zero =>
    intro i k mf writes r h
    exact absurd h (by simp [filter_loop_writes])
  | succ f ih =>
    intro i k mf writes r h
    rw [filter_loop_writes] at h
    split at h
    · rename_i hcond
      cases hget : buf[i]? with
      | none => simp [hget] at h
      | some ch =>
        simp only [hget] at h
        split at h
        · cases hstore : store mf k ch with
          | none => simp [hstore] at h
          | some stored =>
            simp only [hstore] at h
            obtain ⟨hle, h8, hlog⟩ := ih _ _ _ _ _ h
            refine ⟨by omega, fun _ => h8 (by omega), ?_⟩
            have hsub : r.1 - k = (r.1 - (k + 1)) + 1 := by omega
            rw [hlog, hsub, List.range'_succ, List.append_assoc]
            rfl
        · exact ih _ _ _ _ _ h
    · simp only [Option.some.injEq] at h
      subst h
      simp

/-- The loop on a message: it returns, with the kept bytes in front of the zeros of the
array. -/
theorem filter_loop_message (s : CxxString) :
    filter_loop (c_str s) (toInt (strlen (c_str s)))
        ((toInt (strlen (c_str s))).toNat + 1) 0 0 (List.replicate 64 0)
      = some ((((s.take (scanned s)).filter keep).take 8).length,
          ((s.take (scanned s)).filter keep).take 8 ++
            List.replicate (64 - (((s.take (scanned s)).filter keep).take 8).length) 0) := by
  have hle : scanned s ≤ s.length :=
    le_trans (scanned_le s) (List.takeWhile_prefix _).length_le
  have hloop := filter_loop_eq (c_str s) (s.drop (scanned s) ++ [0])
      (toInt (strlen (c_str s))) (s.take (scanned s)) [] []
      ((toInt (strlen (c_str s))).toNat + 1)
      (by simp only [c_str, List.nil_append, ← List.append_assoc, List.take_append_drop])
      (by
        simp only [List.length_nil, List.length_take, Nat.zero_add]
        unfold scanned at hle ⊢
        omega)
      (by simp)
      (by
        simp only [List.length_take]
        unfold scanned
        omega)
  simpa only [List.length_nil, List.nil_append, Nat.sub_zero] using hloop

/-- C12: for every message the loop keeps at most eight bytes and four more are appended;
the writes into `message_final` go to the indices 0, 1, .. in turn, one for each byte of
the text, so every write index is at most 11; behind the text the array of 64 bytes holds
zeros, so it is NUL-terminated; and the text delivered has between 4 and 12 bytes. -/
theorem message_final_bounds (m : CxxString) :
    ∃ (message_final : List Byte) (writes : List Nat) (kept : List Byte),
      message_final_writes m = some (message_final, writes) ∧
      build_message_final m = some (kept ++ suffix) ∧
      string_of_chars message_final = some (kept ++ suffix) ∧
      kept.length ≤ 8 ∧ suffix.length = 4 ∧
      writes = List.range (kept ++ suffix).length ∧
      (∀ w ∈ writes, w ≤ 11) ∧
      message_final.length = 64 ∧
      message_final = (kept ++ suffix) ++ List.replicate (64 - (kept ++ suffix).length) 0 ∧
      4 ≤ (kept ++ suffix).length ∧ (kept ++ suffix).length ≤ 12 := by
  have hloop := filter_loop_message m
  have hbuild := build_message_final_eq m
  have hk8 : (((m.take (scanned m)).filter keep).take 8).length ≤ 8 :=
    List.length_take_le _ _
  have hz : ∀ b ∈ ((m.take (scanned m)).filter keep).take 8, b ≠ 0 := fun b hb =>
    scanned_ne_zero m b (List.mem_of_mem_filter (List.mem_of_mem_take hb))
  generalize ((m.take (scanned m)).filter keep).take 8 = kept at hloop hbuild hk8 hz
  have hsuffix : suffix.length = 4 := by decide
  have hlen : (kept ++ suffix).length = kept.length + 4 := by
    rw [List.length_append, hsuffix]
  have hfst := filter_loop_writes_fst (c_str m) (toInt (strlen (c_str m)))
    ((toInt (strlen (c_str m))).toNat + 1) 0 0 (List.replicate 64 0) []
  rw [hloop] at hfst
  cases hw : filter_loop_writes (c_str m) (toInt (strlen (c_str m)))
      ((toInt (strlen (c_str m))).toNat + 1) 0 0 (List.replicate 64 0) [] with
  | none =>
    rw [hw] at hfst
    exact absurd hfst (by simp)
  | some r =>
    obtain ⟨k, mf, writes⟩ := r
    rw [hw] at hfst
    simp only [Option.map_some', Option.some.injEq, Prod.mk.injEq] at hfst
    obtain ⟨hk, hmf⟩ := hfst
    have hlog := (filter_loop_writes_log _ _ _ _ _ _ _ _ hw).2.2
    simp only [List.nil_append, Nat.sub_zero] at hlog
    subst hk hmf hlog
    have harr : kept ++ [46] ++ [46] ++ [46] ++ [10] = kept ++ suffix := by
      rw [suffix_eq]
      simp
    have hwrites : List.range' 0 kept.length ++
        [kept.length, kept.length + 1, kept.length + 2, kept.length + 3]
        = List.range (kept ++ suffix).length := by
      rw [hlen, List.range_eq_range']
      have happ := List.range'_append 0 kept.length 4 1
      simp only [Nat.one_mul, Nat.zero_add] at happ
      rw [Nat.add_comm kept.length 4, ← happ]
      rfl
    have hfinal : message_final_writes m = some
        ((kept ++ suffix) ++ List.replicate (64 - (kept ++ suffix).length) 0,
          List.range (kept ++ suffix).length) := by
      unfold message_final_writes
      simp only []
      rw [hw]
      simp only []
      rw [store_at kept kept.length 46 rfl (by omega)]
      simp only []
      rw [store_at (kept ++ [46]) (kept.length + 1) 46 (by simp) (by omega)]
      simp only []
      rw [store_at (kept ++ [46] ++ [46]) (kept.length + 2) 46 (by simp) (by omega)]
      simp only []
      rw [store_at (kept ++ [46] ++ [46] ++ [46]) (kept.length + 3) 10 (by simp)
        (by omega)]
      simp only []
      rw [harr, hwrites]
    have hzs : ∀ b ∈ kept ++ suffix, b ≠ 0 := by
      intro b hb
      rcases List.mem_append.mp hb with hb | hb
      · exact hz b hb
      · rw [suffix_eq] at hb
        simp only [List.mem_cons, List.mem_singleton, List.not_mem_nil, or_false] at hb
        rcases hb with hb | hb | hb | hb <;> subst hb <;> decide
    refine ⟨_, _, kept, hfinal, hbuild, ?_, hk8, hsuffix, rfl, ?_, ?_, rfl, ?_, ?_⟩
    · exact string_of_chars_append _ hzs _ (by omega)
    · intro w hw'
      have := List.mem_range.mp hw'
      omega
    · simp only [List.length_append, List.length_replicate] at hlen ⊢
      omega
    · omega
    · omega

/-! ## The number handed to the progress callback -/

/-- The digit run of a buffer, by its digits. -/
theorem digit_run_eq :
    ∀ (l : List Byte) (acc : Nat),
      digit_run l acc
        = (l.takeWhile isdigit).foldl (fun acc d => acc * 10 + (d.val - 48)) acc := by
  intro l
  induction l with
  | nil =>
    intro acc
    rfl
  | cons b l ih =>
    intro acc
    unfold digit_run
    by_cases hb : isdigit b = true
    · rw [if_pos hb, List.takeWhile_cons_of_pos hb, List.foldl_cons, ih]
    · rw [if_neg hb, List.takeWhile_cons_of_neg hb]
      rfl

/-- The terminating NUL ends the digits of a buffer. -/
theorem takeWhile_isdigit_c_str (l : List Byte) :
    (l ++ [0]).takeWhile isdigit = l.takeWhile isdigit := by
  induction l with
  | nil => decide
  | cons b l ih =>
    by_cases hb : isdigit b = true
    · rw [List.cons_append, List.takeWhile_cons_of_pos hb, List.takeWhile_cons_of_pos hb, ih]
    · rw [List.cons_append, List.takeWhile_cons_of_neg hb, List.takeWhile_cons_of_neg hb]

/-- The terminating NUL ends the white space of a buffer. -/
theorem dropWhile_isspace_c_str (l : List Byte) :
    (l ++ [0]).dropWhile isspace = l.dropWhile isspace ++ [0] := by
  induction l with
  | nil => decide
  | cons b l ih =>
    by_cases hb : isspace b = true
    · rw [List.cons_append, List.dropWhile_cons_of_pos hb, List.dropWhile_cons_of_pos hb, ih]
    · rw [List.cons_append, List.dropWhile_cons_of_neg hb, List.dropWhile_cons_of_neg hb]
      rfl

/-- What `atol` returns for a message: the number the message stands for, limited to the
range of `long`. -/
theorem atol_c_str (m : CxxString) : atol (c_str m) = clamp_long (signed_digit_run m) := by
  unfold atol signed_digit_run c_str
  rw [dropWhile_isspace_c_str]
  cases hrest : m.dropWhile isspace with
  | nil => decide
  | cons b rest =>
    simp only [List.cons_append]
    rw [digit_run_eq, digit_run_eq, ← List.cons_append, takeWhile_isdigit_c_str,
      takeWhile_isdigit_c_str]
    split
    · rfl
    · split <;> rfl

/-- A message that starts with digits up to a `.` stands for the value of these digits. -/
theorem signed_digit_run_fraction (d1 d2 : CxxString) (hne : d1 ≠ [])
    (hd : ∀ b ∈ d1, isdigit b = true) :
    signed_digit_run (d1 ++ [46] ++ d2) = (decimal_value d1 : Int) := by
  cases d1 with
  | nil => exact absurd rfl hne
  | cons b d1 =>
    have hb : isdigit b = true := hd b (List.mem_cons_self b d1)
    have hrange : 48 ≤ b.val ∧ b.val ≤ 57 := by
      simpa [isdigit] using hb
    have hspace : ¬ isspace b = true := by
      simp only [isspace, Bool.or_eq_true, Bool.and_eq_true, decide_eq_true_eq]
      omega
    have htake : ((b :: d1) ++ ([46] ++ d2)).takeWhile isdigit = b :: d1 := by
      rw [List.takeWhile_append_of_pos hd]
      have h46 : isdigit 46 = false := by decide
      simp [List.takeWhile_cons, h46]
    unfold signed_digit_run
    rw [List.append_assoc, List.cons_append, List.dropWhile_cons_of_neg hspace]
    simp only []
    rw [if_neg (by omega), if_neg (by omega), ← List.cons_append, htake]

set_option maxRecDepth 100000 in
/-- C15, as stated, fails: the message `9223372036854775808` stands for the number `2^63`,
but the integer handed to the progress callback is `2^63 - 1`, the largest `long`. -/
theorem report_progress_saturates :
    report_progress (sample_component (some quiet_display)) []
        (lit "9223372036854775808")
      = (.void, [Event.report_progress (lit "9223372036854775808"),
          Event.evaluateCall (lit "OnProgress") (.integer 9223372036854775807)]) ∧
    signed_digit_run (lit "9223372036854775808") = 9223372036854775808 := by
  decide

/-- C15, amended: the integer `report_progress` hands to the progress callback is the value
`atol` gives the message: the decimal value of the digit run, with or without a sign, that
follows the leading white space, limited to the range of `long`; within that range it is
the decimal value itself. `0.0` is delivered as 0, and a message of digits `d1`, a `.` and
any text as the value of `d1`, limited in the same way. -/
theorem report_progress_percent (self : Y2PartedComponent) (trace : List Event)
    (m : CxxString) (display : Y2Namespace)
    (hdisplay : self.report_macro = some display)
    (hcall : display.createFunctionCall (trace ++ [Event.report_progress m])
      self.progress_symbol = true) :
    (∃ val, report_progress self trace m = (val,
      trace ++ [Event.report_progress m,
        Event.evaluateCall self.progress_symbol
          (.integer (clamp_long (signed_digit_run m)))])) ∧
    (-(2 ^ 63) ≤ signed_digit_run m ∧ signed_digit_run m ≤ 2 ^ 63 - 1 →
      clamp_long (signed_digit_run m) = signed_digit_run m) ∧
    clamp_long (signed_digit_run (lit "0.0")) = 0 ∧
    (∀ d1 d2 : CxxString, m = d1 ++ [46] ++ d2 → d1 ≠ [] →
      (∀ b ∈ d1, isdigit b = true) →
      clamp_long (signed_digit_run m) = clamp_long (decimal_value d1 : Int)) := by
  have hc : callable self (trace ++ [Event.report_progress m]) self.progress_symbol
      = true := by
    simp [callable, hdisplay, hcall]
  refine ⟨?_, ?_, by decide, ?_⟩
  · rw [report_progress_eq, if_pos hc, atol_c_str]
    exact ⟨_, Prod.ext rfl (List.append_assoc _ _ _)⟩
  · intro h
    unfold clamp_long
    rw [if_neg (by omega), if_neg (by omega)]
  · intro d1 d2 hm hne hd
    rw [hm, signed_digit_run_fraction d1 d2 hne hd]

set_option maxRecDepth 100000 in
/-- A concrete instance of `report_progress_percent`, at the message `42.75`. -/
theorem report_progress_percent_witness :
    (∃ val, report_progress (sample_component (some quiet_display)) [] (lit "42.75")
      = (val, [] ++ [Event.report_progress (lit "42.75"),
        Event.evaluateCall (sample_component (some quiet_display)).progress_symbol
          (.integer (clamp_long (signed_digit_run (lit "42.75"))))])) ∧
    (-(2 ^ 63) ≤ signed_digit_run (lit "42.75") ∧
        signed_digit_run (lit "42.75") ≤ 2 ^ 63 - 1 →
      clamp_long (signed_digit_run (lit "42.75")) = signed_digit_run (lit "42.75")) ∧
    clamp_long (signed_digit_run (lit "0.0")) = 0 ∧
    (∀ d1 d2 : CxxString, lit "42.75" = d1 ++ [46] ++ d2 → d1 ≠ [] →
      (∀ b ∈ d1, isdigit b = true) →
      clamp_long (signed_digit_run (lit "42.75")) = clamp_long (decimal_value d1 : Int)) :=
  report_progress_percent (sample_component (some quiet_display)) [] (lit "42.75")
    quiet_display rfl rfl

end Y2Parted

namespace storage

/-! ## `commit` on an empty queue -/

/-- C11: `commit` on an empty queue of pending actions returns the "nothing to do" code of
its engine, `DISK_COMMIT_NOTHING_TODO` (-1028) or `LVM_COMMIT_NOTHING_TODO` (-4031); that
value is negative and so never the success value 0, which a queue whose actions all
succeed returns. -/
theorem commit_nothing_todo (engine : CommitEngine) :
    commit engine [] = engine.nothing_todo.value ∧
    (commit engine [] = ErrorCodes.DISK_COMMIT_NOTHING_TODO.value ∨
      commit engine [] = ErrorCodes.LVM_COMMIT_NOTHING_TODO.value) ∧
    (commit engine [] = -1028 ∨ commit engine [] = -4031) ∧
    commit engine [] < 0 ∧ commit engine [] ≠ 0 ∧
    ∀ failure : ErrorCodes,
      commit engine [{ tool_status := 0, failure := failure }] = 0 := by
  refine ⟨rfl, ?_, ?_, ?_, ?_, ?_⟩
  · cases engine
    · exact Or.inl rfl
    · exact Or.inr rfl
  · cases engine
    · exact Or.inl rfl
    · exact Or.inr rfl
  · cases engine <;> decide
  · cases engine <;> decide
  · intro failure
    simp [commit, commit_actions]

end storage
